import Mathlib

/-!
Verification development for the SEO audit pipeline of this repository
(crawler, check registry, aggregation).

Modelling conventions:
* Python strings are `String` / `List Char`; Python string length (code points)
  is `String.length`.
* Python floats are modelled by exact rationals `ℚ`; the scoring formulas only
  involve a handful of additions, multiplications and comparisons, which is the
  intended real-number semantics of the source.
* Network fetches (aiohttp) are an oracle `String → Option CrawledPage`: the
  source absorbs every fetch exception and returns `None` for a failed page, so
  a fetch is observationally a partial function from URL to page.
* BeautifulSoup is an external HTML parser; the handful of checks that query it
  receive its observable answers through an explicit `Soup` record of query
  functions (one field per query form the source performs on a page body).
  Checks that only use substring tests on the raw HTML are modelled exactly.
* The crawl loop is written with explicit fuel; the safety properties proved
  about it hold for every fuel value, hence for the (possibly non-terminating)
  source loop as well.
* `urllib.parse` is modelled after the CPython implementation of
  `urlsplit` / `urlparse` (scheme detection, netloc split, fragment then query
  split, parameter split for schemes using parameters, removal of tab / CR / LF
  and left-strip of C0 controls and spaces). The IPv6 bracket validation error
  path is not modelled (no claim involves bracketed hosts).
-/

namespace SeoAudit

/-! ### Model of `urllib.parse.urlparse` as used by `crawler.py` -/

/-- Characters allowed in a URL scheme (CPython `scheme_chars`). -/
def isSchemeChar (c : Char) : Bool :=
  c.isAlphanum || c == '+' || c == '-' || c == '.'

/-- Characters in CPython `_WHATWG_C0_CONTROL_OR_SPACE` (left-stripped). -/
def isC0ControlOrSpace (c : Char) : Bool :=
  c.val ≤ 32

/-- Model of Python `str.isascii` for a single character. -/
def isAsciiChar (c : Char) : Bool :=
  c.val < 128

/-- Characters in CPython `_UNSAFE_URL_BYTES_TO_REMOVE` (removed everywhere). -/
def isUnsafeUrlByte (c : Char) : Bool :=
  c == '\t' || c == '\r' || c == '\n'

/-- Model of Python `s.split(sep, 1)` on a character list: the part before the
first occurrence of `sep` and the part after it (empty when `sep` is absent,
matching the convention of the call sites in `urlsplit`, which leave the string
unchanged and the second component empty when the separator does not occur). -/
def splitOnce (sep : Char) (l : List Char) : List Char × List Char :=
  let pre := l.takeWhile (fun c => !(c == sep))
  (pre, (l.drop pre.length).drop 1)

/-- Result record of `urlsplit`. -/
structure UrlSplit where
  scheme : List Char
  netloc : List Char
  path : List Char
  query : List Char
  fragment : List Char
deriving Repr, DecidableEq

/-- Model of CPython `urllib.parse.urlsplit` (modern CPython: left-strip of
C0 controls and spaces, removal of tab / CR / LF, scheme accepted when the text
before the first colon is nonempty, starts with an ASCII letter and consists of
scheme characters, netloc delimited by the first of "/", "?", "#", fragment
split before query split). -/
def urlsplit (url0 : List Char) : UrlSplit :=
  let u := (url0.dropWhile isC0ControlOrSpace).filter (fun c => !isUnsafeUrlByte c)
  let pre := u.takeWhile (fun c => !(c == ':'))
  let goodScheme := u.contains ':' && !pre.isEmpty &&
      isAsciiChar (pre.headD 'a') && (pre.headD 'a').isAlpha && pre.all isSchemeChar
  let scheme := if goodScheme then pre.map Char.toLower else []
  let u2 := if goodScheme then (u.drop pre.length).drop 1 else u
  let nlRest :=
    match u2 with
    | '/' :: '/' :: rest =>
      let nl := rest.takeWhile (fun c => !(c == '/' || c == '?' || c == '#'))
      (nl, rest.drop nl.length)
    | _ => ([], u2)
  let frPair := splitOnce '#' nlRest.2
  let pqPair := splitOnce '?' frPair.1
  { scheme := scheme, netloc := nlRest.1, path := pqPair.1, query := pqPair.2,
    fragment := frPair.2 }

/-- Result record of `urlparse` (adds the parameter component). -/
structure UrlParse where
  scheme : List Char
  netloc : List Char
  path : List Char
  params : List Char
  query : List Char
  fragment : List Char
deriving Repr, DecidableEq

/-- Schemes for which `urlparse` splits path parameters (CPython
`uses_params`). -/
def usesParams : List (List Char) :=
  [[], "ftp".data, "hdl".data, "prospero".data, "http".data, "imap".data,
   "https".data, "shttp".data, "rtsp".data, "rtspu".data, "sip".data,
   "sips".data, "mms".data, "sftp".data, "tel".data]

/-- Model of CPython `_splitparams`: when the path contains a "/", parameters
start at the first ";" at or after the last "/"; otherwise at the first ";". -/
def splitParams (l : List Char) : List Char × List Char :=
  if l.contains '/' then
    let seg := (l.reverse.takeWhile (fun c => !(c == '/'))).reverse
    let keep := seg.takeWhile (fun c => !(c == ';'))
    if keep.length < seg.length then
      (l.take (l.length - seg.length) ++ keep, seg.drop (keep.length + 1))
    else (l, [])
  else
    let keep := l.takeWhile (fun c => !(c == ';'))
    if keep.length < l.length then (keep, l.drop (keep.length + 1)) else (l, [])

/-- Model of CPython `urllib.parse.urlparse`. -/
def urlparse (url : List Char) : UrlParse :=
  let s := urlsplit url
  if usesParams.contains s.scheme && s.path.contains ';' then
    let pp := splitParams s.path
    ⟨s.scheme, s.netloc, pp.1, pp.2, s.query, s.fragment⟩
  else
    ⟨s.scheme, s.netloc, s.path, [], s.query, s.fragment⟩

/-- Model of `WebsiteCrawler._normalize_url`: rebuild
`scheme://netloc + path` (dropping query, fragment and parameters), then remove
one trailing slash when the parsed path is longer than one character. -/
def normalizeUrlL (url : List Char) : List Char :=
  let p := urlparse url
  let normalized := p.scheme ++ [':', '/', '/'] ++ p.netloc ++ p.path
  if normalized.getLast? == some '/' && decide (1 < p.path.length) then
    normalized.dropLast
  else normalized

/-- String wrapper for `normalizeUrlL`. -/
def normalizeUrl (url : String) : String :=
  ⟨normalizeUrlL url.data⟩

/-- Worker of `pyReplace`; the fuel bounds the number of visited positions and
is instantiated with the length of the subject string, which suffices to
process every position. -/
def replaceAux (pat rep : List Char) : ℕ → List Char → List Char
  | _, [] => []
  | 0, l => l
  | fuel + 1, c :: rest =>
    if !pat.isEmpty && pat.isPrefixOf (c :: rest) then
      rep ++ replaceAux pat rep fuel ((c :: rest).drop pat.length)
    else c :: replaceAux pat rep fuel rest

/-- Model of Python `s.replace(pat, rep)` for a nonempty pattern: replace every
non-overlapping occurrence from the left (the single call site uses the
pattern "www."). -/
def pyReplace (s pat rep : String) : String :=
  ⟨replaceAux pat.data rep.data s.data.length s.data⟩

/-- Model of `WebsiteCrawler._is_same_domain` (the base domain is the netloc of
the seed URL, captured by the crawler object). -/
def isSameDomain (baseDomain : String) (url : String) : Bool :=
  let netloc : String := ⟨(urlparse url.data).netloc⟩
  netloc == baseDomain || netloc == "www." ++ baseDomain ||
    netloc == pyReplace baseDomain "www." ""

example : normalizeUrl "https://x.com/a/" = "https://x.com/a" := rfl
example : normalizeUrl "https://x.com/a#frag" = "https://x.com/a" := rfl
example : normalizeUrl "https://x.com/a?page=1" = "https://x.com/a" := rfl
example : normalizeUrl "https://x.com/a//" = "https://x.com/a/" := rfl
example : normalizeUrl "https://x.com/" = "https://x.com/" := rfl

/-! ### The `CrawledPage` data model of `crawler.py` -/

/-- One entry of `CrawledPage.images` (the dict built per `img` tag). -/
structure ImageTag where
  src : String
  alt : String
  title : String
  width : String
  height : String
deriving Repr, DecidableEq

/-- The `CrawledPage` dataclass.  Python `Optional[str]` becomes
`Option String`, string lists stay lists, dict-valued metadata becomes
association lists, float fields become `ℚ`.  The field `large_images`
(`List[Dict[str, any]]`, never written nor read by any code path) is omitted
as untypeable dead weight. -/
structure CrawledPage where
  url : String
  html : String
  status_code : Int
  title : Option String := none
  meta_description : Option String := none
  meta_robots : Option String := none
  canonical : Option String := none
  h1_tags : List String := []
  h2_tags : List String := []
  h3_tags : List String := []
  images : List ImageTag := []
  links : List String := []
  internal_links : List String := []
  external_links : List String := []
  broken_links : List String := []
  scripts : List String := []
  stylesheets : List String := []
  load_time : ℚ := 0
  has_viewport : Bool := false
  has_https : Bool := false
  word_count : ℕ := 0
  og_tags : List (String × String) := []
  twitter_tags : List (String × String) := []
  schema_markup : List String := []
  meta_charset : Option String := none
  meta_lang : Option String := none
  paragraphs : List String := []
  headings_structure : List (String × List String) := []
  alt_missing_images : List String := []
  redirects : List String := []
  response_headers : List (String × String) := []
  content_type : Option String := none
  keyword_density : List (String × ℚ) := []
  readability_score : ℚ := 0
deriving Repr, DecidableEq

/-- Python truthiness test `not s` for an optional string (`None` and the empty
string are falsy). -/
def falsyStr : Option String → Bool
  | none => true
  | some s => s.isEmpty

/-! ### The crawl loop of `WebsiteCrawler.crawl` -/

/-- State returned by the crawl loop.  `fetched` is a ghost trace recording, in
order, every URL passed to `_fetch_page`; the source does not store it, it only
serves to state the no-revisit property. -/
structure CrawlResult where
  pages : List CrawledPage
  visited : List String
  fetched : List String
deriving Repr, DecidableEq

/-- The inner `for link in crawled_page.links` loop: enqueue each normalized
same-domain link that is neither visited nor already queued, preserving
first-discovery order.  The accumulator is the current frontier. -/
def enqueueLinks (baseDomain : String) (visited : List String)
    (frontier : List String) (links : List String) : List String :=
  links.foldl (fun acc link =>
    let nl := normalizeUrl link
    if isSameDomain baseDomain nl && !(visited.contains nl) && !(acc.contains nl)
    then acc ++ [nl] else acc) frontier

/-- The `while urls_to_visit and len(self.crawled_pages) < self.max_pages` loop
of `WebsiteCrawler.crawl`, with explicit fuel.  Each iteration pops the frontier
head, normalizes it, skips it when visited, otherwise marks it visited and
fetches it; on success the page is appended and its links enqueued.  The fetch
oracle absorbs all per-page failures (`_fetch_page` returns `None` on any
exception). -/
def crawlLoop (fetch : String → Option CrawledPage) (maxPages : ℕ)
    (baseDomain : String) :
    ℕ → List String → List String → List CrawledPage → List String → CrawlResult
  | 0, _, visited, pages, fetched => ⟨pages, visited, fetched⟩
  | _ + 1, [], visited, pages, fetched => ⟨pages, visited, fetched⟩
  | fuel + 1, current :: rest, visited, pages, fetched =>
    if maxPages ≤ pages.length then ⟨pages, visited, fetched⟩
    else
      let nu := normalizeUrl current
      if visited.contains nu then
        crawlLoop fetch maxPages baseDomain fuel rest visited pages fetched
      else
        let visited2 := visited ++ [nu]
        match fetch nu with
        | none =>
          crawlLoop fetch maxPages baseDomain fuel rest visited2 pages
            (fetched ++ [nu])
        | some page =>
          crawlLoop fetch maxPages baseDomain fuel
            (enqueueLinks baseDomain visited2 rest page.links)
            visited2 (pages ++ [page]) (fetched ++ [nu])

/-- `WebsiteCrawler.crawl`: derive the base domain from the seed URL, seed the
frontier with the start URL, run the loop with empty visited set and page
list. -/
def crawl (fetch : String → Option CrawledPage) (maxPages : ℕ) (fuel : ℕ)
    (startUrl : String) : CrawlResult :=
  let baseDomain : String := ⟨(urlparse startUrl.data).netloc⟩
  crawlLoop fetch maxPages baseDomain fuel [startUrl] [] [] []

/-- The status enumeration of a check result (`models.CheckStatus`). -/
inductive CheckStatus where
  | pass
  | fail
  | warning
  | info
deriving Repr, DecidableEq

/-- Scoring-relevant projection of the result dict produced by every check.
The presentation-only fields (`current_value`, `recommended_value`, `pros`,
`cons`, `ranking_impact`, `solution`, `enhancements`, `details`) are omitted:
the specification states that only scoring / status / aggregation behavior is a
contract and that recommendation wording is a non-goal, and no claim concerns
those fields.  Every check in the source populates `status` and `impact_score`
explicitly, so the dict-access defaults of `process_audit` never fire. -/
structure CheckResult where
  check_name : String
  category : String
  status : CheckStatus
  impact_score : ℤ
deriving Repr, DecidableEq

/-- Accumulator of the counting loop in `process_audit`. -/
structure AuditTotals where
  passed : ℕ
  failed : ℕ
  warning : ℕ
  total_impact : ℚ
deriving Repr, DecidableEq

/-- The `for check_result in check_results` counting loop of `process_audit`:
count statuses and accumulate `impact_score` for failures plus
`impact_score * 0.5` for warnings; `info` results only flow into the total
count. -/
def auditTotals (results : List CheckResult) : AuditTotals :=
  results.foldl (fun acc r =>
    match r.status with
    | .pass => { acc with passed := acc.passed + 1 }
    | .fail => { acc with failed := acc.failed + 1,
                          total_impact := acc.total_impact + (r.impact_score : ℚ) }
    | .warning => { acc with warning := acc.warning + 1,
                             total_impact := acc.total_impact + (r.impact_score : ℚ) * (1/2) }
    | .info => acc) ⟨0, 0, 0, 0⟩

/-- The score computation of `process_audit`:
`max(0, min(100, (passed/total)*100 - (total_impact/total)*0.3))`, and `0` when
no check ran. -/
def overallScore (results : List CheckResult) : ℚ :=
  let t := auditTotals results
  let total := results.length
  if 0 < total then
    max 0 (min 100 (((t.passed : ℚ) / (total : ℚ)) * 100
      - (t.total_impact / (total : ℚ)) * (3/10)))
  else 0

/-- Model of Python `round(x, 1)`: round half to even on the value scaled by
ten (floats are modelled as exact rationals). -/
def roundHalfEven (q : ℚ) : ℤ :=
  let f := ⌊q⌋
  let r := q - (f : ℚ)
  if r < 1/2 then f
  else if 1/2 < r then f + 1
  else if Even f then f else f + 1

/-- Rounding to one decimal place as `process_audit` persists the score. -/
def round1 (q : ℚ) : ℚ :=
  (roundHalfEven (q * 10) : ℚ) / 10

/-- The audit aggregate persisted by `process_audit` (the fields of the claims;
timestamps and metadata are outside the audit core). -/
structure AuditOutcome where
  total_checks_run : ℕ
  checks_passed : ℕ
  checks_failed : ℕ
  checks_warning : ℕ
  overall_score : ℚ
deriving Repr, DecidableEq

/-- The persisted aggregate of `process_audit` for a given check-result
list. -/
def processAuditOutcome (results : List CheckResult) : AuditOutcome :=
  let t := auditTotals results
  { total_checks_run := results.length
    checks_passed := t.passed
    checks_failed := t.failed
    checks_warning := t.warning
    overall_score := round1 (overallScore results) }

/-- Aggregation formula transcribed from the words of the specification, for
the refinement claim C1: `total` counts all results, `passed` counts status
pass, `total_impact` sums the impact of failures plus half the impact of
warnings, `base = (passed/total)*100` and `penalty = (total_impact/total)*0.3`
(both zero when `total` is zero), and the score is
`clamp(base - penalty, 0, 100)` rounded to one decimal place. -/
def specOverallScore (results : List CheckResult) : ℚ :=
  let total : ℕ := results.length
  let passed : ℚ := ((results.filter (fun r => r.status == .pass)).length : ℚ)
  let totalImpact : ℚ :=
    (((results.filter (fun r => r.status == .fail)).map
        (fun r => (r.impact_score : ℚ))).sum)
      + (1/2) * (((results.filter (fun r => r.status == .warning)).map
        (fun r => (r.impact_score : ℚ))).sum)
  let base : ℚ := if total = 0 then 0 else passed / (total : ℚ) * 100
  let penalty : ℚ := if total = 0 then 0 else totalImpact / (total : ℚ) * (3/10)
  round1 (max 0 (min 100 (base - penalty)))

/-! ### The check registry of `checks.py` (namespace `Checks`) -/

namespace Checks

namespace TechnicalSEOChecks

/-- `checks.py` `TechnicalSEOChecks.check_meta_robots`. -/
def check_meta_robots (pages : List CrawledPage) : CheckResult :=
  let missing_count := (pages.filter (fun p => falsyStr p.meta_robots)).length
  { check_name := "Meta robots tag", category := "Technical SEO",
    status := if 0 < missing_count then .fail else .pass, impact_score := 75 }

/-- `checks.py` `TechnicalSEOChecks.check_https`. -/
def check_https (pages : List CrawledPage) : CheckResult :=
  let http_pages := pages.filter (fun p => !p.has_https)
  { check_name := "HTTPS implementation", category := "Technical SEO",
    status := if http_pages.isEmpty then .pass else .fail, impact_score := 95 }

/-- `checks.py` `TechnicalSEOChecks.check_viewport`. -/
def check_viewport (pages : List CrawledPage) : CheckResult :=
  let missing := pages.filter (fun p => !p.has_viewport)
  { check_name := "Viewport meta tag", category := "Technical SEO",
    status := if missing.isEmpty then .pass else .fail, impact_score := 85 }

/-- `checks.py` `TechnicalSEOChecks.check_canonical`. -/
def check_canonical (pages : List CrawledPage) : CheckResult :=
  let missing := pages.filter (fun p => falsyStr p.canonical)
  { check_name := "Canonical tags", category := "Technical SEO",
    status := if missing.isEmpty then .pass else .warning, impact_score := 80 }

end TechnicalSEOChecks

namespace PerformanceChecks

/-- `checks.py` `PerformanceChecks.check_load_time` (the caller guarantees a
nonempty page list; rational division by zero is zero where Python would
raise). -/
def check_load_time (pages : List CrawledPage) : CheckResult :=
  let avg_load := (pages.map (fun p => p.load_time)).sum / (pages.length : ℚ)
  let slow_pages := pages.filter (fun p => decide ((3 : ℚ) < p.load_time))
  { check_name := "Page load time", category := "Performance",
    status := if !slow_pages.isEmpty then .fail
      else if (2 : ℚ) < avg_load then .warning else .pass,
    impact_score := 95 }

end PerformanceChecks

namespace OnPageSEOChecks

/-- Issue list built by `checks.py` `OnPageSEOChecks.check_title_tags`: a page
is flagged when its title is missing, shorter than 30 characters, or longer
than 60 characters. -/
def title_issues (pages : List CrawledPage) : List String :=
  pages.foldl (fun issues p =>
    if falsyStr p.title then issues ++ [p.url ++ ": Missing title"]
    else
      let t := p.title.getD ""
      if t.length < 30 then
        issues ++ [p.url ++ ": Title too short (" ++ toString t.length ++ " chars)"]
      else if 60 < t.length then
        issues ++ [p.url ++ ": Title too long (" ++ toString t.length ++ " chars)"]
      else issues) []

/-- `checks.py` `OnPageSEOChecks.check_title_tags`. -/
def check_title_tags (pages : List CrawledPage) : CheckResult :=
  let issues := title_issues pages
  { check_name := "Title tags optimization", category := "On-Page SEO",
    status := if (pages.length : ℚ) * (3/10) < (issues.length : ℚ) then .fail
      else if !issues.isEmpty then .warning else .pass,
    impact_score := 100 }

/-- Issue list built by `checks.py` `OnPageSEOChecks.check_meta_descriptions`. -/
def description_issues (pages : List CrawledPage) : List String :=
  pages.foldl (fun issues p =>
    if falsyStr p.meta_description then
      issues ++ [p.url ++ ": Missing meta description"]
    else
      let d := p.meta_description.getD ""
      if d.length < 120 then issues ++ [p.url ++ ": Description too short"]
      else if 160 < d.length then issues ++ [p.url ++ ": Description too long"]
      else issues) []

/-- `checks.py` `OnPageSEOChecks.check_meta_descriptions`. -/
def check_meta_descriptions (pages : List CrawledPage) : CheckResult :=
  let issues := description_issues pages
  { check_name := "Meta descriptions", category := "On-Page SEO",
    status := if (pages.length : ℚ) * (3/10) < (issues.length : ℚ) then .fail
      else if !issues.isEmpty then .warning else .pass,
    impact_score := 85 }

/-- `checks.py` `OnPageSEOChecks.check_h1_tags`. -/
def check_h1_tags (pages : List CrawledPage) : CheckResult :=
  let issues := pages.foldl (fun issues p =>
    if p.h1_tags.isEmpty then issues ++ [p.url ++ ": Missing H1"]
    else if 1 < p.h1_tags.length then
      issues ++ [p.url ++ ": Multiple H1 tags (" ++ toString p.h1_tags.length ++ ")"]
    else issues) []
  { check_name := "H1 heading tags", category := "On-Page SEO",
    status := if issues.isEmpty then .pass else .fail, impact_score := 90 }

/-- `checks.py` `OnPageSEOChecks.check_image_alt_text`. -/
def check_image_alt_text (pages : List CrawledPage) : CheckResult :=
  let total_images := (pages.map (fun p => p.images.length)).sum
  let missing_alt :=
    (pages.map (fun p => (p.images.filter (fun img => img.alt.isEmpty)).length)).sum
  { check_name := "Image alt attributes", category := "On-Page SEO",
    status := if (total_images : ℚ) * (3/10) < (missing_alt : ℚ) then .fail
      else if 0 < missing_alt then .warning else .pass,
    impact_score := 70 }

end OnPageSEOChecks

namespace ContentChecks

/-- `checks.py` `ContentChecks.check_content_length` (the caller guarantees a
nonempty page list). -/
def check_content_length (pages : List CrawledPage) : CheckResult :=
  let thin_pages := pages.filter (fun p => p.word_count < 300)
  { check_name := "Content length and depth", category := "Content Quality",
    status := if (pages.length : ℚ) * (4/10) < (thin_pages.length : ℚ) then .fail
      else if !thin_pages.isEmpty then .warning else .pass,
    impact_score := 85 }

end ContentChecks

/-- `checks.py` `run_all_checks`: return `[]` for an empty page list, otherwise
run every registered check in registration order. -/
def run_all_checks (pages : List CrawledPage) : List CheckResult :=
  if pages.isEmpty then []
  else
    [TechnicalSEOChecks.check_meta_robots pages,
     TechnicalSEOChecks.check_https pages,
     TechnicalSEOChecks.check_viewport pages,
     TechnicalSEOChecks.check_canonical pages,
     PerformanceChecks.check_load_time pages,
     OnPageSEOChecks.check_title_tags pages,
     OnPageSEOChecks.check_meta_descriptions pages,
     OnPageSEOChecks.check_h1_tags pages,
     OnPageSEOChecks.check_image_alt_text pages,
     ContentChecks.check_content_length pages]

end Checks

/-! ### The check registry of `comprehensive_checks.py` (namespace `Comprehensive`) -/

/-- Containment of a character list at some suffix position. -/
def listInfix (needle : List Char) : List Char → Bool
  | [] => needle.isEmpty
  | c :: rest => needle.isPrefixOf (c :: rest) || listInfix needle rest

/-- Python substring test `needle in haystack`. -/
def pyIn (needle haystack : String) : Bool :=
  listInfix needle.data haystack.data

/-- Python `text.split()` (split on whitespace runs, discarding empties). -/
def pyWords (text : String) : List String :=
  (text.split (fun c => c.isWhitespace)).filter (fun w => !w.isEmpty)

/-- Model of Python `text.split(sep)` for a nonempty separator, as a list of
separated pieces (Lean `String.splitOn` has the same semantics). -/
def pySplit (text sep : String) : List String :=
  text.splitOn sep

/-- The free-form `website_data` mapping threaded through the comprehensive
registry (a `Dict[str, Any]` that no executed check reads; modelled as an
association list). -/
def WebsiteData := List (String × String)

/-- Observable answers of the external BeautifulSoup HTML parser for the
queries the comprehensive checks perform on a raw page body.  One field per
query form in the source; checks that only use Python substring tests on the
raw HTML do not go through this record.  All theorems about the comprehensive
registry are quantified over every possible parser behavior. -/
structure Soup where
  ogMetaCount : String → ℕ
  twitterMetaCount : String → ℕ
  hasMetaCharset : String → Bool
  htmlLang : String → Option String
  viewportContent : String → Option String
  canonicalCount : String → ℕ
  headBlockingScriptCount : String → ℕ
  headStylesheetCount : String → ℕ
  domNodeCount : String → ℕ
  scriptSrcs : String → List String
  headingLevels : String → List ℕ
  hasBreadcrumbClass : String → Bool
  pageText : String → String
  preloadCount : String → ℕ
  preconnectCount : String → ℕ
  dnsPrefetchCount : String → ℕ
  hasHreflangLink : String → Bool

namespace Comprehensive

namespace TechnicalSEOChecks

/-- `comprehensive_checks.py` `TechnicalSEOChecks.check_meta_robots`. -/
def check_meta_robots (pages : List CrawledPage) : CheckResult :=
  let missing_count := (pages.filter (fun p => falsyStr p.meta_robots)).length
  { check_name := "Meta Robots Tag Presence", category := "Technical SEO",
    status := if 0 < missing_count then .fail else .pass, impact_score := 75 }

/-- `comprehensive_checks.py` `TechnicalSEOChecks.check_og_tags`. -/
def check_og_tags (soup : Soup) (pages : List CrawledPage) : CheckResult :=
  let missing := (pages.filter (fun p => soup.ogMetaCount p.html == 0)).length
  { check_name := "Open Graph (OG) tags missing", category := "Technical SEO",
    status := if (pages.length : ℚ) * (1/2) < (missing : ℚ) then .fail
      else if 0 < missing then .warning else .pass,
    impact_score := 70 }

/-- `comprehensive_checks.py` `TechnicalSEOChecks.check_twitter_cards`. -/
def check_twitter_cards (soup : Soup) (pages : List CrawledPage) : CheckResult :=
  let missing := (pages.filter (fun p => soup.twitterMetaCount p.html == 0)).length
  { check_name := "Twitter Card meta tags missing", category := "Technical SEO",
    status := if 0 < missing then .warning else .pass, impact_score := 60 }

/-- `comprehensive_checks.py` `TechnicalSEOChecks.check_meta_charset`. -/
def check_meta_charset (soup : Soup) (pages : List CrawledPage) : CheckResult :=
  let missing := (pages.filter (fun p => !soup.hasMetaCharset p.html)).length
  { check_name := "Meta charset not specified", category := "Technical SEO",
    status := if 0 < missing then .fail else .pass, impact_score := 65 }

/-- `comprehensive_checks.py` `TechnicalSEOChecks.check_meta_language` (a page
counts as missing when the `html` tag is absent or its `lang` attribute is
falsy). -/
def check_meta_language (soup : Soup) (pages : List CrawledPage) : CheckResult :=
  let missing := (pages.filter (fun p => falsyStr (soup.htmlLang p.html))).length
  { check_name := "Meta language tag missing", category := "Technical SEO",
    status := if 0 < missing then .warning else .pass, impact_score := 70 }

/-- `comprehensive_checks.py` `TechnicalSEOChecks.check_viewport`. -/
def check_viewport (pages : List CrawledPage) : CheckResult :=
  let missing := pages.filter (fun p => !p.has_viewport)
  { check_name := "Viewport meta tag missing", category := "Technical SEO",
    status := if missing.isEmpty then .pass else .fail, impact_score := 90 }

/-- `comprehensive_checks.py` `TechnicalSEOChecks.check_user_scalable`. -/
def check_user_scalable (soup : Soup) (pages : List CrawledPage) : CheckResult :=
  let issues := (pages.filter (fun p =>
    match soup.viewportContent p.html with
    | some content =>
      pyIn "user-scalable=no" content || pyIn "user-scalable=0" content
    | none => false)).length
  { check_name := "user-scalable set to \x27no\x27 in viewport",
    category := "Technical SEO",
    status := if 0 < issues then .warning else .pass, impact_score := 60 }

/-- `comprehensive_checks.py` `TechnicalSEOChecks.check_mobile_friendly`. -/
def check_mobile_friendly (pages : List CrawledPage) : CheckResult :=
  let mobile_ready := (pages.filter (fun p => p.has_viewport)).length
  let percentage : ℚ :=
    if pages.isEmpty then 0 else (mobile_ready : ℚ) / (pages.length : ℚ) * 100
  { check_name := "Mobile-friendly design issues", category := "Technical SEO",
    status := if 80 ≤ percentage then .pass
      else if 50 ≤ percentage then .warning else .fail,
    impact_score := 95 }

/-- `comprehensive_checks.py` `TechnicalSEOChecks.check_sitemap_in_robots`
(always a warning: robots.txt is not fetched). -/
def check_sitemap_in_robots (pages : List CrawledPage)
    (website_data : WebsiteData) : CheckResult :=
  let _ := pages
  let _ := website_data
  { check_name := "Sitemap not referenced in robots.txt",
    category := "Technical SEO", status := .warning, impact_score := 75 }

/-- `comprehensive_checks.py` `TechnicalSEOChecks.check_https`. -/
def check_https (pages : List CrawledPage) : CheckResult :=
  let http_pages := pages.filter (fun p => !p.has_https)
  { check_name := "Website not using HTTPS", category := "Technical SEO",
    status := if http_pages.isEmpty then .pass else .fail, impact_score := 95 }

/-- `comprehensive_checks.py` `TechnicalSEOChecks.check_canonical`. -/
def check_canonical (pages : List CrawledPage) : CheckResult :=
  let missing := pages.filter (fun p => falsyStr p.canonical)
  { check_name := "Canonical tag missing", category := "Technical SEO",
    status := if missing.isEmpty then .pass else .warning, impact_score := 80 }

/-- `comprehensive_checks.py` `TechnicalSEOChecks.check_structured_data`. -/
def check_structured_data (pages : List CrawledPage) : CheckResult :=
  let has_schema := (pages.filter (fun p =>
    pyIn "application/ld+json" p.html || pyIn "schema.org" p.html)).length
  let percentage : ℚ :=
    if pages.isEmpty then 0 else (has_schema : ℚ) / (pages.length : ℚ) * 100
  { check_name := "Schema markup missing (JSON-LD)", category := "Technical SEO",
    status := if 50 ≤ percentage then .pass
      else if 20 ≤ percentage then .warning else .fail,
    impact_score := 85 }

/-- `comprehensive_checks.py` `TechnicalSEOChecks.check_redirects`
(informational placeholder). -/
def check_redirects (pages : List CrawledPage) : CheckResult :=
  let _ := pages
  { check_name := "Multiple redirect chains", category := "Technical SEO",
    status := .info, impact_score := 70 }

/-- `comprehensive_checks.py` `TechnicalSEOChecks.check_url_structure`. -/
def check_url_structure (pages : List CrawledPage) : CheckResult :=
  let long_urls := (pages.filter (fun p => 115 < p.url.length)).length
  let bad_chars := (pages.filter (fun p =>
    pyIn "_" p.url || p.url != p.url.toLower)).length
  let issues := long_urls + bad_chars
  { check_name := "URL structure not SEO-friendly", category := "Technical SEO",
    status := if issues == 0 then .pass
      else if (issues : ℚ) < (pages.length : ℚ) * (3/10) then .warning else .fail,
    impact_score := 75 }

/-- `comprehensive_checks.py` `TechnicalSEOChecks.check_hreflang` (always
informational). -/
def check_hreflang (pages : List CrawledPage) : CheckResult :=
  let _ := (pages.filter (fun p => pyIn "hreflang" p.html)).length
  { check_name := "Hreflang tags missing (international sites)",
    category := "Technical SEO", status := .info, impact_score := 80 }

/-- `comprehensive_checks.py` `TechnicalSEOChecks.check_mixed_content`. -/
def check_mixed_content (pages : List CrawledPage) : CheckResult :=
  let has_mixed := (pages.filter (fun p =>
    pyIn "https://" p.url && pyIn "http://" p.html)).length
  { check_name := "Mixed content warnings", category := "Technical SEO",
    status := if 0 < has_mixed then .fail else .pass, impact_score := 85 }

/-- `comprehensive_checks.py` `TechnicalSEOChecks.check_ssl_certificate`
(informational placeholder). -/
def check_ssl_certificate (pages : List CrawledPage) : CheckResult :=
  let _ := pages
  { check_name := "SSL certificate issues", category := "Technical SEO",
    status := .info, impact_score := 95 }

/-- `comprehensive_checks.py` `TechnicalSEOChecks.check_multiple_canonicals`. -/
def check_multiple_canonicals (soup : Soup) (pages : List CrawledPage) :
    CheckResult :=
  let multiple := (pages.filter (fun p => 1 < soup.canonicalCount p.html)).length
  { check_name := "Multiple canonical tags", category := "Technical SEO",
    status := if 0 < multiple then .fail else .pass, impact_score := 88 }

/-- `comprehensive_checks.py`
`TechnicalSEOChecks.check_canonical_pointing_nonindexable` (informational
placeholder). -/
def check_canonical_pointing_nonindexable (pages : List CrawledPage) :
    CheckResult :=
  let _ := pages
  { check_name := "Canonical pointing to non-indexable URL",
    category := "Technical SEO", status := .info, impact_score := 90 }

/-- `comprehensive_checks.py` `TechnicalSEOChecks.check_invalid_schema`
(informational placeholder). -/
def check_invalid_schema (pages : List CrawledPage) : CheckResult :=
  let _ := pages
  { check_name := "Invalid schema markup", category := "Technical SEO",
    status := .info, impact_score := 75 }

/-- `comprehensive_checks.py` `TechnicalSEOChecks.check_url_length`. -/
def check_url_length (pages : List CrawledPage) : CheckResult :=
  let long_urls := (pages.filter (fun p => 115 < p.url.length)).length
  let percentage : ℚ :=
    if pages.isEmpty then 0 else (long_urls : ℚ) / (pages.length : ℚ) * 100
  { check_name := "URLs exceeding recommended length (>115 characters)",
    category := "Technical SEO",
    status := if 20 < percentage then .warning
      else if percentage == 0 then .pass else .info,
    impact_score := 65 }

/-- `comprehensive_checks.py` `TechnicalSEOChecks.check_url_case_underscores`.
A URL counts when it contains an underscore or any uppercase character after
the first "://" occurrence (the Python generator would raise on a URL without
"://" when the underscore test fails; such URLs are modelled as clean, no
crawler-produced URL lacks a scheme separator). -/
def check_url_case_underscores (pages : List CrawledPage) : CheckResult :=
  let issues := (pages.filter (fun p =>
    pyIn "_" p.url ||
      (match (pySplit p.url "://").tail.head? with
       | some rest => rest.data.any Char.isUpper
       | none => false))).length
  let percentage : ℚ :=
    if pages.isEmpty then 0 else (issues : ℚ) / (pages.length : ℚ) * 100
  { check_name := "Mixed case or underscores in URLs",
    category := "Technical SEO",
    status := if 10 < percentage then .warning
      else if percentage == 0 then .pass else .info,
    impact_score := 60 }

/-- `comprehensive_checks.py` `TechnicalSEOChecks.check_404_errors`
(informational placeholder). -/
def check_404_errors (pages : List CrawledPage) : CheckResult :=
  let _ := pages
  { check_name := "404 errors on important pages", category := "Technical SEO",
    status := .info, impact_score := 87 }

/-- `comprehensive_checks.py` `TechnicalSEOChecks.check_redirect_loops`
(informational placeholder). -/
def check_redirect_loops (pages : List CrawledPage) : CheckResult :=
  let _ := pages
  { check_name := "Redirect loops detected", category := "Technical SEO",
    status := .info, impact_score := 92 }

/-- `comprehensive_checks.py` `TechnicalSEOChecks.check_excessive_redirects`
(informational placeholder). -/
def check_excessive_redirects (pages : List CrawledPage) : CheckResult :=
  let _ := pages
  { check_name := "Too many 301/302 redirects", category := "Technical SEO",
    status := .info, impact_score := 78 }

/-- `comprehensive_checks.py` `TechnicalSEOChecks.check_microdata_issues`. -/
def check_microdata_issues (pages : List CrawledPage) : CheckResult :=
  let has_microdata := (pages.filter (fun p =>
    pyIn "itemscope" p.html || pyIn "itemprop" p.html)).length
  { check_name := "Microdata markup issues", category := "Technical SEO",
    status := if 0 < has_microdata then .info else .pass, impact_score := 58 }

/-- `comprehensive_checks.py` `TechnicalSEOChecks.check_html_size` (the HTML
size is its UTF-8 byte length). -/
def check_html_size (pages : List CrawledPage) : CheckResult :=
  let large_html := (pages.filter (fun p => 100000 < p.html.utf8ByteSize)).length
  let percentage : ℚ :=
    if pages.isEmpty then 0 else (large_html : ℚ) / (pages.length : ℚ) * 100
  { check_name := "HTML file size too large (>100KB)",
    category := "Technical SEO",
    status := if 20 < percentage then .warning
      else if percentage == 0 then .pass else .info,
    impact_score := 70 }

/-- `comprehensive_checks.py` `TechnicalSEOChecks.check_cdn_implementation`
(informational placeholder). -/
def check_cdn_implementation (pages : List CrawledPage) : CheckResult :=
  let _ := pages
  { check_name := "No CDN implementation", category := "Technical SEO",
    status := .info, impact_score := 80 }

end TechnicalSEOChecks

namespace PerformanceChecks

/-- `comprehensive_checks.py` `PerformanceChecks.check_load_time`. -/
def check_load_time (pages : List CrawledPage) : CheckResult :=
  let avg_load : ℚ :=
    if pages.isEmpty then 0
    else (pages.map (fun p => p.load_time)).sum / (pages.length : ℚ)
  let slow_pages := pages.filter (fun p => decide ((3 : ℚ) < p.load_time))
  { check_name := "Slow page load time (>3 seconds)", category := "Performance",
    status := if !slow_pages.isEmpty then .fail
      else if (2 : ℚ) < avg_load then .warning else .pass,
    impact_score := 95 }

/-- `comprehensive_checks.py` `PerformanceChecks.check_lcp` (LCP estimated as
1.2 times the average load time). -/
def check_lcp (pages : List CrawledPage) : CheckResult :=
  let avg_load : ℚ :=
    if pages.isEmpty then 0
    else (pages.map (fun p => p.load_time)).sum / (pages.length : ℚ)
  let estimated_lcp := avg_load * (12/10)
  { check_name := "Poor Largest Contentful Paint (LCP >2.5s)",
    category := "Performance",
    status := if estimated_lcp ≤ 5/2 then .pass
      else if estimated_lcp ≤ 4 then .warning else .fail,
    impact_score := 95 }

/-- `comprehensive_checks.py` `PerformanceChecks.check_fid` (informational
placeholder). -/
def check_fid (pages : List CrawledPage) : CheckResult :=
  let _ := pages
  { check_name := "High First Input Delay (FID >100ms)",
    category := "Performance", status := .info, impact_score := 85 }

/-- `comprehensive_checks.py` `PerformanceChecks.check_cls` (informational
placeholder). -/
def check_cls (pages : List CrawledPage) : CheckResult :=
  let _ := pages
  { check_name := "Poor Cumulative Layout Shift (CLS >0.1)",
    category := "Performance", status := .info, impact_score := 90 }

/-- `comprehensive_checks.py` `PerformanceChecks.check_ttfb` (TTFB estimated
as 0.2 times the average load time). -/
def check_ttfb (pages : List CrawledPage) : CheckResult :=
  let avg_load : ℚ :=
    if pages.isEmpty then 0
    else (pages.map (fun p => p.load_time)).sum / (pages.length : ℚ)
  let estimated_ttfb := avg_load * (2/10)
  { check_name := "Slow Time to First Byte (TTFB >600ms)",
    category := "Performance",
    status := if estimated_ttfb ≤ 6/10 then .pass
      else if estimated_ttfb ≤ 1 then .warning else .fail,
    impact_score := 80 }

/-- `comprehensive_checks.py` `PerformanceChecks.check_image_optimization`
(always a warning: image sizes are unknown). -/
def check_image_optimization (pages : List CrawledPage) : CheckResult :=
  let _ := (pages.map (fun p => p.images.length)).sum
  { check_name := "Images not optimized (>100KB each)",
    category := "Performance", status := .warning, impact_score := 90 }

/-- `comprehensive_checks.py` `PerformanceChecks.check_modern_image_formats`. -/
def check_modern_image_formats (pages : List CrawledPage) : CheckResult :=
  let total_images := (pages.map (fun p => p.images.length)).sum
  let modern_formats := (pages.map (fun p =>
    (p.images.filter (fun img =>
      pyIn ".webp" img.src.toLower || pyIn ".avif" img.src.toLower)).length)).sum
  let percentage : ℚ :=
    if 0 < total_images then (modern_formats : ℚ) / (total_images : ℚ) * 100
    else 0
  { check_name := "Images not using modern formats (WebP/AVIF)",
    category := "Performance",
    status := if 50 ≤ percentage then .pass
      else if 20 ≤ percentage then .warning else .fail,
    impact_score := 75 }

/-- One image dict of `check_lazy_loading`: Python tests
`'loading' in str(img)` against the textual repr of the dict; the substring can
only occur inside one of the five attribute values. -/
def imageReprHasLoading (img : ImageTag) : Bool :=
  pyIn "loading" img.src || pyIn "loading" img.alt || pyIn "loading" img.title ||
    pyIn "loading" img.width || pyIn "loading" img.height

/-- `comprehensive_checks.py` `PerformanceChecks.check_lazy_loading`. -/
def check_lazy_loading (pages : List CrawledPage) : CheckResult :=
  let total_images := (pages.map (fun p => p.images.length)).sum
  let images_with_lazy := (pages.map (fun p =>
    (p.images.filter imageReprHasLoading).length)).sum
  let percentage : ℚ :=
    if 0 < total_images then (images_with_lazy : ℚ) / (total_images : ℚ) * 100
    else 0
  { check_name := "Lazy loading not implemented", category := "Performance",
    status := if 50 ≤ percentage then .pass
      else if 20 ≤ percentage then .warning else .fail,
    impact_score := 70 }

/-- `comprehensive_checks.py` `PerformanceChecks.check_caching` (always a
warning: response headers are not inspected). -/
def check_caching (pages : List CrawledPage) : CheckResult :=
  let _ := pages
  { check_name := "Browser caching not enabled", category := "Performance",
    status := .warning, impact_score := 85 }

/-- `comprehensive_checks.py` `PerformanceChecks.check_minification` (a page
counts as minified when its newline count is below one percent of its
length). -/
def check_minification (pages : List CrawledPage) : CheckResult :=
  let minified_count := (pages.filter (fun p =>
    decide ((p.html.data.count '\n' : ℚ) < (p.html.length : ℚ) / 100))).length
  let percentage : ℚ :=
    if pages.isEmpty then 0
    else (minified_count : ℚ) / (pages.length : ℚ) * 100
  { check_name := "Unminified CSS/JavaScript", category := "Performance",
    status := if 50 ≤ percentage then .pass
      else if 20 ≤ percentage then .warning else .fail,
    impact_score := 70 }

/-- `comprehensive_checks.py` `PerformanceChecks.check_http2` (informational
placeholder). -/
def check_http2 (pages : List CrawledPage) : CheckResult :=
  let _ := pages
  { check_name := "HTTP/2 not enabled", category := "Performance",
    status := .info, impact_score := 70 }

/-- `comprehensive_checks.py` `PerformanceChecks.check_render_blocking`. -/
def check_render_blocking (soup : Soup) (pages : List CrawledPage) :
    CheckResult :=
  let blocking_resources := (pages.map (fun p =>
    soup.headBlockingScriptCount p.html + soup.headStylesheetCount p.html)).sum
  let avg_blocking : ℚ :=
    if pages.isEmpty then 0
    else (blocking_resources : ℚ) / (pages.length : ℚ)
  { check_name := "Render-blocking resources", category := "Performance",
    status := if avg_blocking < 3 then .pass
      else if avg_blocking < 6 then .warning else .fail,
    impact_score := 85 }

/-- `comprehensive_checks.py` `PerformanceChecks.check_dom_size`. -/
def check_dom_size (soup : Soup) (pages : List CrawledPage) : CheckResult :=
  let large_doms := (pages.filter (fun p =>
    1500 < soup.domNodeCount p.html)).length
  { check_name := "Excessive DOM size (>1500 nodes)", category := "Performance",
    status := if large_doms == 0 then .pass
      else if (large_doms : ℚ) < (pages.length : ℚ) * (1/2) then .warning
      else .fail,
    impact_score := 70 }

/-- `comprehensive_checks.py`
`PerformanceChecks.check_interaction_to_next_paint` (informational
placeholder). -/
def check_interaction_to_next_paint (pages : List CrawledPage) : CheckResult :=
  let _ := pages
  { check_name := "High Interaction to Next Paint (INP >200ms)",
    category := "Performance", status := .info, impact_score := 88 }

/-- `comprehensive_checks.py` `PerformanceChecks.check_desktop_performance`
(informational placeholder). -/
def check_desktop_performance (pages : List CrawledPage) : CheckResult :=
  let _ := pages
  { check_name := "Poor desktop performance score (<90)",
    category := "Performance", status := .info, impact_score := 80 }

/-- `comprehensive_checks.py` `PerformanceChecks.check_mobile_performance`
(informational placeholder). -/
def check_mobile_performance (pages : List CrawledPage) : CheckResult :=
  let _ := pages
  { check_name := "Poor mobile performance score (<70)",
    category := "Performance", status := .info, impact_score := 92 }

/-- `comprehensive_checks.py` `PerformanceChecks.check_third_party_scripts`:
a page counts when some script tag has a source whose netloc is nonempty,
differs from the netloc of the page URL, and the source does not start with
"/". -/
def check_third_party_scripts (soup : Soup) (pages : List CrawledPage) :
    CheckResult :=
  let third_party := (pages.filter (fun p =>
    let domain : String := ⟨(urlparse p.url.data).netloc⟩
    (soup.scriptSrcs p.html).any (fun src =>
      let script_domain : String := ⟨(urlparse src.data).netloc⟩
      !script_domain.isEmpty && script_domain != domain &&
        !(src.startsWith "/")))).length
  let percentage : ℚ :=
    if pages.isEmpty then 0
    else (third_party : ℚ) / (pages.length : ℚ) * 100
  { check_name := "Third-party scripts slowing site", category := "Performance",
    status := if 50 < percentage then .warning else .info,
    impact_score := 77 }

/-- `comprehensive_checks.py` `PerformanceChecks.check_resource_preloading`. -/
def check_resource_preloading (pages : List CrawledPage) : CheckResult :=
  let has_preload := (pages.filter (fun p =>
    pyIn "rel=\"preload\"" p.html || pyIn "rel=\"prefetch\"" p.html)).length
  let percentage : ℚ :=
    if pages.isEmpty then 0
    else (has_preload : ℚ) / (pages.length : ℚ) * 100
  { check_name := "No resource preloading", category := "Performance",
    status := if 50 < percentage then .pass else .warning,
    impact_score := 68 }

/-- `comprehensive_checks.py` `PerformanceChecks.check_compressed_resources`
(informational placeholder). -/
def check_compressed_resources (pages : List CrawledPage) : CheckResult :=
  let _ := pages
  { check_name := "Resources not using modern compression (Brotli)",
    category := "Performance", status := .info, impact_score := 72 }

end PerformanceChecks

namespace OnPageSEOChecks

/-- Issue list of `comprehensive_checks.py` `OnPageSEOChecks.check_title_tags`
(same per-page classification as the `checks.py` variant: missing, shorter than
30 characters, or longer than 60 characters). -/
def title_issues (pages : List CrawledPage) : List String :=
  pages.foldl (fun issues p =>
    if falsyStr p.title then issues ++ [p.url ++ ": Missing title"]
    else
      let t := p.title.getD ""
      if t.length < 30 then
        issues ++ [p.url ++ ": Title too short (" ++ toString t.length ++ " chars)"]
      else if 60 < t.length then
        issues ++ [p.url ++ ": Title too long (" ++ toString t.length ++ " chars)"]
      else issues) []

/-- `comprehensive_checks.py` `OnPageSEOChecks.check_title_tags`. -/
def check_title_tags (pages : List CrawledPage) : CheckResult :=
  let missing := (pages.filter (fun p => falsyStr p.title)).length
  let issues := title_issues pages
  { check_name := "Meta title issues", category := "On-Page SEO",
    status := if 0 < missing then .fail
      else if 0 < issues.length then .warning else .pass,
    impact_score := 100 }

/-- `comprehensive_checks.py` `OnPageSEOChecks.check_meta_descriptions`. -/
def check_meta_descriptions (pages : List CrawledPage) : CheckResult :=
  let missing := (pages.filter (fun p => falsyStr p.meta_description)).length
  let issues := pages.foldl (fun issues p =>
    if falsyStr p.meta_description then
      issues ++ [p.url ++ ": Missing description"]
    else
      let d := p.meta_description.getD ""
      if d.length < 120 then issues ++ [p.url ++ ": Description too short"]
      else if 160 < d.length then issues ++ [p.url ++ ": Description too long"]
      else issues) []
  { check_name := "Meta description issues", category := "On-Page SEO",
    status := if 0 < missing then .fail
      else if !issues.isEmpty then .warning else .pass,
    impact_score := 85 }

/-- `comprehensive_checks.py` `OnPageSEOChecks.check_h1_tags`. -/
def check_h1_tags (pages : List CrawledPage) : CheckResult :=
  let missing := (pages.filter (fun p => p.h1_tags.isEmpty)).length
  let multiple := (pages.filter (fun p => 1 < p.h1_tags.length)).length
  { check_name := "H1 heading issues", category := "On-Page SEO",
    status := if 0 < missing then .fail
      else if 0 < multiple then .warning else .pass,
    impact_score := 90 }

/-- Per-page skip detection of `check_heading_hierarchy`: walking the heading
levels with the previous level, a page is flagged at the first heading whose
level exceeds the previous level plus one (ignoring the leading position). -/
def hasHeadingSkip : ℕ → List ℕ → Bool
  | _, [] => false
  | prev, l :: ls =>
    if prev + 1 < l && prev != 0 then true else hasHeadingSkip l ls

/-- `comprehensive_checks.py` `OnPageSEOChecks.check_heading_hierarchy`. -/
def check_heading_hierarchy (soup : Soup) (pages : List CrawledPage) :
    CheckResult :=
  let issues := (pages.filter (fun p =>
    hasHeadingSkip 0 (soup.headingLevels p.html))).length
  { check_name := "Weak heading hierarchy (skipping levels)",
    category := "On-Page SEO",
    status := if issues == 0 then .pass
      else if (issues : ℚ) < (pages.length : ℚ) * (1/2) then .warning
      else .fail,
    impact_score := 65 }

/-- `comprehensive_checks.py` `OnPageSEOChecks.check_image_alt_text` (the
coverage percentage defaults to 100 when there is no image). -/
def check_image_alt_text (pages : List CrawledPage) : CheckResult :=
  let total_images := (pages.map (fun p => p.images.length)).sum
  let missing_alt :=
    (pages.map (fun p => (p.images.filter (fun img => img.alt.isEmpty)).length)).sum
  let percentage : ℚ :=
    if 0 < total_images then
      ((total_images - missing_alt : ℕ) : ℚ) / (total_images : ℚ) * 100
    else 100
  { check_name := "Images missing alt attributes", category := "On-Page SEO",
    status := if percentage < 70 then .fail
      else if percentage < 90 then .warning else .pass,
    impact_score := 75 }

/-- `comprehensive_checks.py` `OnPageSEOChecks.check_internal_linking`: the
base domain is the netloc of the first page URL, links are internal when they
contain the base domain as a substring. -/
def check_internal_linking (pages : List CrawledPage) : CheckResult :=
  let base_domain : String :=
    match pages.head? with
    | some p => ⟨(urlparse p.url.data).netloc⟩
    | none => ""
  let internal_counts := pages.map (fun p =>
    (p.links.filter (fun link => pyIn base_domain link)).length)
  let total_internal_links := internal_counts.sum
  let pages_with_few_links := (internal_counts.filter (fun n => n < 3)).length
  let avg_links : ℚ :=
    if pages.isEmpty then 0
    else (total_internal_links : ℚ) / (pages.length : ℚ)
  { check_name := "Insufficient internal linking", category := "On-Page SEO",
    status := if 5 ≤ avg_links && pages_with_few_links == 0 then .pass
      else if 3 ≤ avg_links then .warning else .fail,
    impact_score := 80 }

/-- `comprehensive_checks.py` `OnPageSEOChecks.check_broken_links`
(informational placeholder). -/
def check_broken_links (pages : List CrawledPage) : CheckResult :=
  let _ := pages
  { check_name := "Broken internal links", category := "On-Page SEO",
    status := .info, impact_score := 70 }

/-- `comprehensive_checks.py` `OnPageSEOChecks.check_breadcrumbs`. -/
def check_breadcrumbs (soup : Soup) (pages : List CrawledPage) : CheckResult :=
  let has_breadcrumbs := (pages.filter (fun p =>
    pyIn "BreadcrumbList" p.html || soup.hasBreadcrumbClass p.html)).length
  let percentage : ℚ :=
    if pages.isEmpty then 0
    else (has_breadcrumbs : ℚ) / (pages.length : ℚ) * 100
  { check_name := "Missing breadcrumb navigation", category := "On-Page SEO",
    status := if 50 ≤ percentage then .pass
      else if 20 ≤ percentage then .warning else .info,
    impact_score := 60 }

/-- Truthy titles of a page list (`[p.title for p in pages if p.title]`). -/
def truthyTitles (pages : List CrawledPage) : List String :=
  pages.filterMap (fun p =>
    match p.title with
    | some t => if t.isEmpty then none else some t
    | none => none)

/-- `comprehensive_checks.py` `OnPageSEOChecks.check_duplicate_titles` (the
duplicate count is the list length minus the number of distinct titles). -/
def check_duplicate_titles (pages : List CrawledPage) : CheckResult :=
  let titles := truthyTitles pages
  let duplicates := titles.length - titles.dedup.length
  let percentage : ℚ :=
    if titles.isEmpty then 0
    else (duplicates : ℚ) / (titles.length : ℚ) * 100
  { check_name := "Duplicate meta titles across pages",
    category := "On-Page SEO",
    status := if 10 < percentage then .fail
      else if 0 < percentage then .warning else .pass,
    impact_score := 85 }

/-- `comprehensive_checks.py` `OnPageSEOChecks.check_duplicate_descriptions`. -/
def check_duplicate_descriptions (pages : List CrawledPage) : CheckResult :=
  let descriptions := pages.filterMap (fun p =>
    match p.meta_description with
    | some d => if d.isEmpty then none else some d
    | none => none)
  let duplicates := descriptions.length - descriptions.dedup.length
  let percentage : ℚ :=
    if descriptions.isEmpty then 0
    else (duplicates : ℚ) / (descriptions.length : ℚ) * 100
  { check_name := "Duplicate meta descriptions", category := "On-Page SEO",
    status := if 10 < percentage then .warning
      else if percentage == 0 then .pass else .info,
    impact_score := 75 }

/-- `comprehensive_checks.py` `OnPageSEOChecks.check_duplicate_h1` (first H1
of each page when present and truthy). -/
def check_duplicate_h1 (pages : List CrawledPage) : CheckResult :=
  let h1s := pages.filterMap (fun p =>
    match p.h1_tags.head? with
    | some h => if h.isEmpty then none else some h
    | none => none)
  let duplicates := h1s.length - h1s.dedup.length
  { check_name := "Duplicate H1 tags across pages", category := "On-Page SEO",
    status := if 0 < duplicates then .warning else .pass,
    impact_score := 70 }

/-- `comprehensive_checks.py` `OnPageSEOChecks.check_keyword_in_title`
(informational placeholder). -/
def check_keyword_in_title (pages : List CrawledPage) : CheckResult :=
  let _ := pages
  { check_name := "Primary keyword missing from title",
    category := "On-Page SEO", status := .info, impact_score := 90 }

/-- `comprehensive_checks.py` `OnPageSEOChecks.check_title_search_intent`
(informational placeholder). -/
def check_title_search_intent (pages : List CrawledPage) : CheckResult :=
  let _ := pages
  { check_name := "Title doesn\x27t match search intent",
    category := "On-Page SEO", status := .info, impact_score := 82 }

/-- Call-to-action word list of `check_description_cta`. -/
def cta_words : List String :=
  ["click", "learn", "discover", "find", "get", "try", "download", "buy",
   "shop", "read"]

/-- `comprehensive_checks.py` `OnPageSEOChecks.check_description_cta`. -/
def check_description_cta (pages : List CrawledPage) : CheckResult :=
  let with_cta := (pages.filter (fun p =>
    !falsyStr p.meta_description &&
      cta_words.any (fun w => pyIn w (p.meta_description.getD "").toLower))).length
  let percentage : ℚ :=
    if pages.isEmpty then 0
    else (with_cta : ℚ) / (pages.length : ℚ) * 100
  { check_name := "No call-to-action in description", category := "On-Page SEO",
    status := if 60 < percentage then .pass
      else if 30 < percentage then .warning else .fail,
    impact_score := 65 }

/-- `comprehensive_checks.py` `OnPageSEOChecks.check_keyword_in_h1`
(informational placeholder). -/
def check_keyword_in_h1 (pages : List CrawledPage) : CheckResult :=
  let _ := pages
  { check_name := "H1 doesn\x27t include primary keyword",
    category := "On-Page SEO", status := .info, impact_score := 80 }

/-- `comprehensive_checks.py` `OnPageSEOChecks.check_missing_h2`. -/
def check_missing_h2 (pages : List CrawledPage) : CheckResult :=
  let missing_h2 := (pages.filter (fun p => p.h2_tags.isEmpty)).length
  let percentage : ℚ :=
    if pages.isEmpty then 0
    else (missing_h2 : ℚ) / (pages.length : ℚ) * 100
  { check_name := "Missing H2 subheadings", category := "On-Page SEO",
    status := if 30 < percentage then .warning
      else if percentage == 0 then .pass else .info,
    impact_score := 70 }

/-- `comprehensive_checks.py` `OnPageSEOChecks.check_heading_formatting`
(informational placeholder). -/
def check_heading_formatting (pages : List CrawledPage) : CheckResult :=
  let _ := pages
  { check_name := "Inconsistent heading formatting", category := "On-Page SEO",
    status := .info, impact_score := 55 }

/-- `comprehensive_checks.py` `OnPageSEOChecks.check_alt_text_quality`
(informational placeholder). -/
def check_alt_text_quality (pages : List CrawledPage) : CheckResult :=
  let _ := (pages.map (fun p => p.images.length)).sum
  { check_name := "Alt text too short or generic", category := "On-Page SEO",
    status := .info, impact_score := 72 }

/-- `comprehensive_checks.py` `OnPageSEOChecks.check_alt_keyword_stuffing`
(informational placeholder). -/
def check_alt_keyword_stuffing (pages : List CrawledPage) : CheckResult :=
  let _ := pages
  { check_name := "Alt text keyword stuffing", category := "On-Page SEO",
    status := .info, impact_score := 68 }

/-- `comprehensive_checks.py` `OnPageSEOChecks.check_decorative_images_alt`
(informational placeholder). -/
def check_decorative_images_alt (pages : List CrawledPage) : CheckResult :=
  let _ := pages
  { check_name := "Decorative images with descriptive alt",
    category := "On-Page SEO", status := .info, impact_score := 50 }

/-- `comprehensive_checks.py` `OnPageSEOChecks.check_contextual_anchor_text`
(informational placeholder). -/
def check_contextual_anchor_text (pages : List CrawledPage) : CheckResult :=
  let _ := pages
  { check_name := "No contextual anchor text", category := "On-Page SEO",
    status := .info, impact_score := 75 }

/-- `comprehensive_checks.py` `OnPageSEOChecks.check_orphan_pages`
(informational placeholder). -/
def check_orphan_pages (pages : List CrawledPage) : CheckResult :=
  let _ := pages
  { check_name := "Orphan pages (no internal links)", category := "On-Page SEO",
    status := .info, impact_score := 82 }

/-- `comprehensive_checks.py` `OnPageSEOChecks.check_deep_pages`
(informational placeholder). -/
def check_deep_pages (pages : List CrawledPage) : CheckResult :=
  let _ := pages
  { check_name := "Deep pages (>3 clicks from home)", category := "On-Page SEO",
    status := .info, impact_score := 73 }

/-- `comprehensive_checks.py` `OnPageSEOChecks.check_table_of_contents`. -/
def check_table_of_contents (pages : List CrawledPage) : CheckResult :=
  let has_toc := (pages.filter (fun p =>
    pyIn "table-of-contents" p.html.toLower || pyIn "toc" p.html.toLower)).length
  let percentage : ℚ :=
    if pages.isEmpty then 0
    else (has_toc : ℚ) / (pages.length : ℚ) * 100
  { check_name := "Table of Contents (TOC) missing", category := "On-Page SEO",
    status := if 30 < percentage then .pass else .info,
    impact_score := 65 }

/-- `comprehensive_checks.py` `OnPageSEOChecks.check_author_info`. -/
def check_author_info (pages : List CrawledPage) : CheckResult :=
  let has_author := (pages.filter (fun p =>
    pyIn "author" p.html.toLower || pyIn "byline" p.html.toLower)).length
  let percentage : ℚ :=
    if pages.isEmpty then 0
    else (has_author : ℚ) / (pages.length : ℚ) * 100
  { check_name := "Author information missing", category := "On-Page SEO",
    status := if 50 < percentage then .pass
      else if 20 < percentage then .warning else .info,
    impact_score := 78 }

/-- `comprehensive_checks.py` `OnPageSEOChecks.check_publish_date`. -/
def check_publish_date (pages : List CrawledPage) : CheckResult :=
  let has_date := (pages.filter (fun p =>
    pyIn "published" p.html.toLower || pyIn "date" p.html.toLower ||
      pyIn "time" p.html.toLower)).length
  let percentage : ℚ :=
    if pages.isEmpty then 0
    else (has_date : ℚ) / (pages.length : ℚ) * 100
  { check_name := "Published/updated date missing", category := "On-Page SEO",
    status := if 60 < percentage then .pass
      else if 30 < percentage then .warning else .fail,
    impact_score := 75 }

/-- `comprehensive_checks.py` `OnPageSEOChecks.check_related_content`. -/
def check_related_content (pages : List CrawledPage) : CheckResult :=
  let has_related := (pages.filter (fun p =>
    pyIn "related" p.html.toLower || pyIn "similar" p.html.toLower ||
      pyIn "recommended" p.html.toLower)).length
  let percentage : ℚ :=
    if pages.isEmpty then 0
    else (has_related : ℚ) / (pages.length : ℚ) * 100
  { check_name := "Related articles/content section missing",
    category := "On-Page SEO",
    status := if 50 < percentage then .pass
      else if 20 < percentage then .warning else .info,
    impact_score := 68 }

/-- `comprehensive_checks.py` `OnPageSEOChecks.check_jump_links`. -/
def check_jump_links (pages : List CrawledPage) : CheckResult :=
  let has_jumps := (pages.filter (fun p => pyIn "href=\"#" p.html)).length
  let percentage : ℚ :=
    if pages.isEmpty then 0
    else (has_jumps : ℚ) / (pages.length : ℚ) * 100
  { check_name := "No jump links for long content", category := "On-Page SEO",
    status := if 30 < percentage then .pass else .info,
    impact_score := 60 }

end OnPageSEOChecks

namespace ContentChecks

/-- `comprehensive_checks.py` `ContentChecks.check_content_length` (same
status logic as the `checks.py` variant, with a guarded average). -/
def check_content_length (pages : List CrawledPage) : CheckResult :=
  let thin_pages := pages.filter (fun p => p.word_count < 300)
  { check_name := "Thin content - insufficient word count (<800 words)",
    category := "Content Quality",
    status := if (pages.length : ℚ) * (4/10) < (thin_pages.length : ℚ) then .fail
      else if !thin_pages.isEmpty then .warning else .pass,
    impact_score := 85 }

/-- `comprehensive_checks.py` `ContentChecks.check_content_freshness`
(informational placeholder). -/
def check_content_freshness (pages : List CrawledPage) : CheckResult :=
  let _ := pages
  { check_name := "Content not updated recently (>1 year)",
    category := "Content Quality", status := .info, impact_score := 70 }

/-- `comprehensive_checks.py` `ContentChecks.check_duplicate_content`
(duplicate detection by comparing truthy titles). -/
def check_duplicate_content (pages : List CrawledPage) : CheckResult :=
  let titles := OnPageSEOChecks.truthyTitles pages
  let duplicate_titles := titles.length - titles.dedup.length
  { check_name := "Duplicate content across pages",
    category := "Content Quality",
    status := if 0 < duplicate_titles then .fail else .pass,
    impact_score := 80 }

/-- `comprehensive_checks.py` `ContentChecks.check_readability`: a page counts
as complex when its extracted text has words and the average words per
period-separated sentence exceeds 25 (the sentence list produced by splitting
on periods is never empty). -/
def check_readability (soup : Soup) (pages : List CrawledPage) : CheckResult :=
  let complex_pages := (pages.filter (fun p =>
    let text := soup.pageText p.html
    let sentences := pySplit text "."
    let words := pyWords text
    !sentences.isEmpty && !words.isEmpty &&
      decide ((25 : ℚ) < (words.length : ℚ) / (sentences.length : ℚ)))).length
  { check_name := "Readability score too complex (>12th grade)",
    category := "Content Quality",
    status := if complex_pages == 0 then .pass
      else if (complex_pages : ℚ) < (pages.length : ℚ) * (1/2) then .warning
      else .fail,
    impact_score := 65 }

/-- `comprehensive_checks.py` `ContentChecks.check_content_comprehensive`
(informational placeholder). -/
def check_content_comprehensive (pages : List CrawledPage) : CheckResult :=
  let _ := pages
  { check_name := "Content could be more comprehensive",
    category := "Content Quality", status := .info, impact_score := 83 }

/-- `comprehensive_checks.py` `ContentChecks.check_ai_generated_content`
(informational placeholder). -/
def check_ai_generated_content (pages : List CrawledPage) : CheckResult :=
  let _ := pages
  { check_name := "Content may be AI-generated without human review",
    category := "Content Quality", status := .info, impact_score := 80 }

/-- `comprehensive_checks.py` `ContentChecks.check_keyword_density`
(informational placeholder). -/
def check_keyword_density (pages : List CrawledPage) : CheckResult :=
  let _ := pages
  { check_name := "Primary keyword density too low",
    category := "Content Quality", status := .info, impact_score := 75 }

/-- `comprehensive_checks.py` `ContentChecks.check_semantic_keywords`
(informational placeholder). -/
def check_semantic_keywords (pages : List CrawledPage) : CheckResult :=
  let _ := pages
  { check_name := "No semantic keywords (LSI)", category := "Content Quality",
    status := .info, impact_score := 78 }

/-- `comprehensive_checks.py` `ContentChecks.check_search_intent_match`
(informational placeholder). -/
def check_search_intent_match (pages : List CrawledPage) : CheckResult :=
  let _ := pages
  { check_name := "Content doesn\x27t match search intent",
    category := "Content Quality", status := .info, impact_score := 92 }

/-- `comprehensive_checks.py` `ContentChecks.check_content_update_schedule`
(informational placeholder). -/
def check_content_update_schedule (pages : List CrawledPage) : CheckResult :=
  let _ := pages
  { check_name := "No content update schedule", category := "Content Quality",
    status := .info, impact_score := 70 }

end ContentChecks

namespace SocialMediaChecks

/-- Social domain list of `check_social_presence`. -/
def social_domains : List String :=
  ["facebook.com", "twitter.com", "linkedin.com", "instagram.com",
   "youtube.com"]

/-- `comprehensive_checks.py` `SocialMediaChecks.check_social_presence`. -/
def check_social_presence (pages : List CrawledPage) : CheckResult :=
  let social_links := (pages.filter (fun p =>
    p.links.any (fun link => social_domains.any (fun d => pyIn d link)))).length
  let percentage : ℚ :=
    if pages.isEmpty then 0
    else (social_links : ℚ) / (pages.length : ℚ) * 100
  { check_name := "Limited social media presence", category := "Social Media",
    status := if 50 ≤ percentage then .pass
      else if 20 ≤ percentage then .warning else .fail,
    impact_score := 55 }

/-- `comprehensive_checks.py` `SocialMediaChecks.check_social_sharing`. -/
def check_social_sharing (pages : List CrawledPage) : CheckResult :=
  let pages_with_sharing := (pages.filter (fun p =>
    pyIn "share" p.html.toLower || pyIn "social" p.html.toLower)).length
  let percentage : ℚ :=
    if pages.isEmpty then 0
    else (pages_with_sharing : ℚ) / (pages.length : ℚ) * 100
  { check_name := "Low social sharing indicators", category := "Social Media",
    status := if 50 ≤ percentage then .pass
      else if 20 ≤ percentage then .warning else .info,
    impact_score := 50 }

/-- `comprehensive_checks.py`
`SocialMediaChecks.check_social_media_links_prominent` (informational
placeholder). -/
def check_social_media_links_prominent (pages : List CrawledPage) :
    CheckResult :=
  let _ := pages
  { check_name := "Social media links not prominent", category := "Social Media",
    status := .info, impact_score := 52 }

/-- `comprehensive_checks.py` `SocialMediaChecks.check_consistent_branding`
(informational placeholder). -/
def check_consistent_branding (pages : List CrawledPage) : CheckResult :=
  let _ := pages
  { check_name := "Inconsistent branding across platforms",
    category := "Social Media", status := .info, impact_score := 58 }

/-- `comprehensive_checks.py` `SocialMediaChecks.check_social_proof`. -/
def check_social_proof (pages : List CrawledPage) : CheckResult :=
  let has_proof := (pages.filter (fun p =>
    pyIn "testimonial" p.html.toLower || pyIn "review" p.html.toLower ||
      pyIn "rating" p.html.toLower)).length
  let percentage : ℚ :=
    if pages.isEmpty then 0
    else (has_proof : ℚ) / (pages.length : ℚ) * 100
  { check_name := "No social proof elements", category := "Social Media",
    status := if 30 < percentage then .pass else .info,
    impact_score := 68 }

end SocialMediaChecks

namespace OffPageSEOChecks

/-- `comprehensive_checks.py` `OffPageSEOChecks.check_domain_authority`. -/
def check_domain_authority : CheckResult :=
  { check_name := "Low Domain Authority (DA <30)", category := "Off-Page SEO",
    status := .info, impact_score := 95 }

/-- `comprehensive_checks.py` `OffPageSEOChecks.check_domain_rating`. -/
def check_domain_rating : CheckResult :=
  { check_name := "Low Domain Rating (DR <30)", category := "Off-Page SEO",
    status := .info, impact_score := 92 }

/-- `comprehensive_checks.py` `OffPageSEOChecks.check_referring_domains`. -/
def check_referring_domains : CheckResult :=
  { check_name := "Few referring domains", category := "Off-Page SEO",
    status := .info, impact_score := 90 }

/-- `comprehensive_checks.py` `OffPageSEOChecks.check_low_authority_backlinks`. -/
def check_low_authority_backlinks : CheckResult :=
  { check_name := "High percentage of backlinks from low-authority domains",
    category := "Off-Page SEO", status := .info, impact_score := 80 }

/-- `comprehensive_checks.py` `OffPageSEOChecks.check_spam_score`. -/
def check_spam_score : CheckResult :=
  { check_name := "High spam score in backlink profile",
    category := "Off-Page SEO", status := .info, impact_score := 88 }

/-- `comprehensive_checks.py` `OffPageSEOChecks.check_anchor_text`. -/
def check_anchor_text : CheckResult :=
  { check_name := "Unnatural anchor text distribution",
    category := "Off-Page SEO", status := .info, impact_score := 75 }

/-- `comprehensive_checks.py` `OffPageSEOChecks.check_nofollow_ratio`. -/
def check_nofollow_ratio : CheckResult :=
  { check_name := "No-follow ratio too high", category := "Off-Page SEO",
    status := .info, impact_score := 70 }

/-- `comprehensive_checks.py` `OffPageSEOChecks.check_directory_citations`. -/
def check_directory_citations : CheckResult :=
  { check_name := "Missing citations from industry directories",
    category := "Off-Page SEO", status := .info, impact_score := 60 }

/-- `comprehensive_checks.py` `OffPageSEOChecks.check_guest_posting`. -/
def check_guest_posting : CheckResult :=
  { check_name := "No guest posting or outreach strategy",
    category := "Off-Page SEO", status := .info, impact_score := 72 }

/-- `comprehensive_checks.py`
`OffPageSEOChecks.check_competitor_backlink_gap`. -/
def check_competitor_backlink_gap : CheckResult :=
  { check_name := "Competitor backlink gap", category := "Off-Page SEO",
    status := .info, impact_score := 85 }

end OffPageSEOChecks

namespace AnalyticsChecks

/-- `comprehensive_checks.py` `AnalyticsChecks.check_google_analytics`. -/
def check_google_analytics (pages : List CrawledPage) : CheckResult :=
  let has_ga := (pages.filter (fun p =>
    pyIn "google-analytics.com" p.html || pyIn "gtag" p.html ||
      pyIn "ga(" p.html)).length
  let percentage : ℚ :=
    if pages.isEmpty then 0
    else (has_ga : ℚ) / (pages.length : ℚ) * 100
  { check_name := "Google Analytics 4 (GA4) not found",
    category := "Analytics & Reporting",
    status := if percentage < 50 then .fail
      else if percentage < 100 then .warning else .pass,
    impact_score := 75 }

/-- `comprehensive_checks.py` `AnalyticsChecks.check_google_tag_manager`. -/
def check_google_tag_manager (pages : List CrawledPage) : CheckResult :=
  let has_gtm := (pages.filter (fun p =>
    pyIn "googletagmanager.com" p.html)).length
  let percentage : ℚ :=
    if pages.isEmpty then 0
    else (has_gtm : ℚ) / (pages.length : ℚ) * 100
  { check_name := "Google Tag Manager not implemented",
    category := "Analytics & Reporting",
    status := if percentage < 100 then .warning else .pass,
    impact_score := 65 }

/-- `comprehensive_checks.py` `AnalyticsChecks.check_search_console`
(informational placeholder). -/
def check_search_console (pages : List CrawledPage) : CheckResult :=
  let _ := pages
  { check_name := "Google Search Console not verified",
    category := "Analytics & Reporting", status := .info, impact_score := 85 }

/-- `comprehensive_checks.py` `AnalyticsChecks.check_conversion_tracking`
(informational placeholder). -/
def check_conversion_tracking (pages : List CrawledPage) : CheckResult :=
  let _ := pages
  { check_name := "Conversion tracking not set up",
    category := "Analytics & Reporting", status := .info, impact_score := 78 }

/-- `comprehensive_checks.py` `AnalyticsChecks.check_data_quality`
(informational placeholder). -/
def check_data_quality (pages : List CrawledPage) : CheckResult :=
  let _ := pages
  { check_name := "Analytics data gaps or inconsistencies",
    category := "Analytics & Reporting", status := .info, impact_score := 70 }

/-- `comprehensive_checks.py` `AnalyticsChecks.check_custom_events`
(informational placeholder). -/
def check_custom_events (pages : List CrawledPage) : CheckResult :=
  let _ := pages
  { check_name := "No custom event tracking",
    category := "Analytics & Reporting", status := .info, impact_score := 60 }

end AnalyticsChecks

namespace GEOAEOChecks

/-- `comprehensive_checks.py` `GEOAEOChecks.check_faq_schema`. -/
def check_faq_schema (pages : List CrawledPage) : CheckResult :=
  let has_faq := (pages.filter (fun p =>
    pyIn "FAQPage" p.html || pyIn "Question" p.html)).length
  let percentage : ℚ :=
    if pages.isEmpty then 0
    else (has_faq : ℚ) / (pages.length : ℚ) * 100
  { check_name := "FAQ schema markup missing", category := "GEO & AEO",
    status := if percentage < 20 then .warning
      else if 50 < percentage then .pass else .info,
    impact_score := 82 }

/-- `comprehensive_checks.py` `GEOAEOChecks.check_howto_schema`. -/
def check_howto_schema (pages : List CrawledPage) : CheckResult :=
  let has_howto := (pages.filter (fun p => pyIn "HowTo" p.html)).length
  let percentage : ℚ :=
    if pages.isEmpty then 0
    else (has_howto : ℚ) / (pages.length : ℚ) * 100
  { check_name := "HowTo schema markup missing", category := "GEO & AEO",
    status := if 10 < percentage then .pass else .info,
    impact_score := 75 }

/-- `comprehensive_checks.py` `GEOAEOChecks.check_ai_overview_ranking`
(informational placeholder). -/
def check_ai_overview_ranking (pages : List CrawledPage) : CheckResult :=
  let _ := pages
  { check_name := "Not ranking in AI Overview/SGE", category := "GEO & AEO",
    status := .info, impact_score := 88 }

/-- Question word list of `check_voice_search_optimization`. -/
def question_words : List String :=
  ["what", "who", "where", "when", "why", "how"]

/-- `comprehensive_checks.py`
`GEOAEOChecks.check_voice_search_optimization`. -/
def check_voice_search_optimization (pages : List CrawledPage) : CheckResult :=
  let optimized_count := (pages.filter (fun p =>
    question_words.any (fun w => pyIn w p.html.toLower))).length
  let percentage : ℚ :=
    if pages.isEmpty then 0
    else (optimized_count : ℚ) / (pages.length : ℚ) * 100
  { check_name := "Content not optimized for voice search",
    category := "GEO & AEO",
    status := if 60 < percentage then .pass
      else if 30 < percentage then .warning else .fail,
    impact_score := 70 }

/-- `comprehensive_checks.py` `GEOAEOChecks.check_organization_schema`. -/
def check_organization_schema (pages : List CrawledPage) : CheckResult :=
  let has_org := (pages.filter (fun p =>
    pyIn "Organization" p.html && pyIn "schema.org" p.html)).length
  { check_name := "Organization schema missing", category := "GEO & AEO",
    status := if has_org == 0 then .fail else .pass,
    impact_score := 80 }

/-- `comprehensive_checks.py` `GEOAEOChecks.check_local_business_schema`
(always informational). -/
def check_local_business_schema (pages : List CrawledPage) : CheckResult :=
  let _ := (pages.filter (fun p => pyIn "LocalBusiness" p.html)).length
  { check_name := "LocalBusiness schema missing", category := "GEO & AEO",
    status := .info, impact_score := 85 }

/-- `comprehensive_checks.py` `GEOAEOChecks.check_google_business_profile`
(informational placeholder). -/
def check_google_business_profile (pages : List CrawledPage) : CheckResult :=
  let _ := pages
  { check_name := "No Google Business Profile integration",
    category := "GEO & AEO", status := .info, impact_score := 90 }

/-- `comprehensive_checks.py` `GEOAEOChecks.check_nap_consistency`
(informational placeholder). -/
def check_nap_consistency (pages : List CrawledPage) : CheckResult :=
  let _ := pages
  { check_name := "Missing NAP (Name, Address, Phone) consistency",
    category := "GEO & AEO", status := .info, impact_score := 75 }

end GEOAEOChecks

namespace AdvancedChecks

/-- `comprehensive_checks.py` `AdvancedChecks.check_robots_txt_valid`
(informational placeholder). -/
def check_robots_txt_valid (pages : List CrawledPage) : CheckResult :=
  let _ := pages
  { check_name := "Robots.txt missing or misconfigured",
    category := "Advanced Technical", status := .info, impact_score := 80 }

/-- `comprehensive_checks.py` `AdvancedChecks.check_sitemap_xml`
(informational placeholder). -/
def check_sitemap_xml (pages : List CrawledPage) : CheckResult :=
  let _ := pages
  { check_name := "Sitemap.xml missing or inaccessible",
    category := "Advanced Technical", status := .info, impact_score := 85 }

/-- `comprehensive_checks.py` `AdvancedChecks.check_pagination_tags`. -/
def check_pagination_tags (pages : List CrawledPage) : CheckResult :=
  let has_pagination := (pages.filter (fun p =>
    pyIn "rel=\"next\"" p.html || pyIn "rel=\"prev\"" p.html)).length
  { check_name := "Pagination tags missing (rel=next/prev)",
    category := "Advanced Technical",
    status := if has_pagination == 0 then .info else .pass,
    impact_score := 65 }

/-- `comprehensive_checks.py` `AdvancedChecks.check_amp_implementation`
(always informational). -/
def check_amp_implementation (pages : List CrawledPage) : CheckResult :=
  let _ := (pages.filter (fun p =>
    pyIn "ampproject" p.html || pyIn "<html amp" p.html.toLower)).length
  { check_name := "AMP implementation issues",
    category := "Advanced Technical", status := .info, impact_score := 55 }

/-- `comprehensive_checks.py` `AdvancedChecks.check_pwa_optimization`. -/
def check_pwa_optimization (pages : List CrawledPage) : CheckResult :=
  let has_manifest := (pages.filter (fun p =>
    pyIn "manifest.json" p.html || pyIn "manifest.webmanifest" p.html)).length
  let has_sw := (pages.filter (fun p =>
    pyIn "service-worker" p.html || pyIn "serviceWorker" p.html)).length
  { check_name := "Progressive Web App (PWA) optimization",
    category := "Advanced Technical",
    status := if 0 < has_manifest && 0 < has_sw then .pass else .info,
    impact_score := 70 }

/-- `comprehensive_checks.py` `AdvancedChecks.check_security_headers`
(informational placeholder). -/
def check_security_headers (pages : List CrawledPage) : CheckResult :=
  let _ := pages
  { check_name := "Security headers missing", category := "Advanced Security",
    status := .info, impact_score := 75 }

/-- `comprehensive_checks.py` `AdvancedChecks.check_privacy_policy`. -/
def check_privacy_policy (pages : List CrawledPage) : CheckResult :=
  let has_privacy := (pages.filter (fun p => pyIn "privacy" p.url.toLower)).length
  { check_name := "Privacy policy missing or outdated",
    category := "Advanced Security",
    status := if has_privacy == 0 then .fail else .pass,
    impact_score := 82 }

/-- `comprehensive_checks.py` `AdvancedChecks.check_cookie_consent`. -/
def check_cookie_consent (pages : List CrawledPage) : CheckResult :=
  let has_consent := (pages.filter (fun p =>
    pyIn "cookie" p.html.toLower &&
      (pyIn "consent" p.html.toLower || pyIn "accept" p.html.toLower))).length
  let percentage : ℚ :=
    if pages.isEmpty then 0
    else (has_consent : ℚ) / (pages.length : ℚ) * 100
  { check_name := "Cookie consent not implemented",
    category := "Advanced Security",
    status := if percentage < 50 then .warning else .pass,
    impact_score := 70 }

/-- `comprehensive_checks.py` `AdvancedChecks.check_wcag_accessibility`
(informational placeholder). -/
def check_wcag_accessibility (pages : List CrawledPage) : CheckResult :=
  let _ := pages
  { check_name := "WCAG accessibility violations",
    category := "Advanced Accessibility", status := .info, impact_score := 78 }

/-- `comprehensive_checks.py` `AdvancedChecks.check_color_contrast`
(informational placeholder). -/
def check_color_contrast (pages : List CrawledPage) : CheckResult :=
  let _ := pages
  { check_name := "Color contrast issues",
    category := "Advanced Accessibility", status := .info, impact_score := 65 }

/-- `comprehensive_checks.py` `AdvancedChecks.check_keyboard_navigation`
(informational placeholder). -/
def check_keyboard_navigation (pages : List CrawledPage) : CheckResult :=
  let _ := pages
  { check_name := "Keyboard navigation problems",
    category := "Advanced Accessibility", status := .info, impact_score := 70 }

/-- `comprehensive_checks.py` `AdvancedChecks.check_http2_enabled`
(informational placeholder). -/
def check_http2_enabled (pages : List CrawledPage) : CheckResult :=
  let _ := pages
  { check_name := "HTTP/2 not enabled", category := "Advanced Performance",
    status := .info, impact_score := 65 }

/-- `comprehensive_checks.py` `AdvancedChecks.check_resource_hints`. -/
def check_resource_hints (soup : Soup) (pages : List CrawledPage) :
    CheckResult :=
  let missing_count := (pages.filter (fun p =>
    soup.preloadCount p.html == 0 && soup.preconnectCount p.html == 0 &&
      soup.dnsPrefetchCount p.html == 0)).length
  { check_name := "No resource preloading/hints",
    category := "Advanced Performance",
    status := if (pages.length : ℚ) * (7/10) < (missing_count : ℚ) then .fail
      else if 0 < missing_count then .warning else .pass,
    impact_score := 70 }

/-- `comprehensive_checks.py` `AdvancedChecks.check_dom_size`. -/
def check_dom_size (soup : Soup) (pages : List CrawledPage) : CheckResult :=
  let large_dom_count := (pages.filter (fun p =>
    1500 < soup.domNodeCount p.html)).length
  { check_name := "Excessive DOM size (>1500 nodes)",
    category := "Advanced Performance",
    status := if (pages.length : ℚ) * (1/2) < (large_dom_count : ℚ) then .fail
      else if 0 < large_dom_count then .warning else .pass,
    impact_score := 75 }

/-- `comprehensive_checks.py` `AdvancedChecks.check_third_party_scripts`: a
page counts as heavy when more than ten of its script sources are nonempty and
contain neither the literal "self" nor the page URL. -/
def check_third_party_scripts (soup : Soup) (pages : List CrawledPage) :
    CheckResult :=
  let heavy_third_party := (pages.filter (fun p =>
    10 < ((soup.scriptSrcs p.html).filter (fun src =>
      !src.isEmpty && !(pyIn "self" src || pyIn p.url src))).length)).length
  { check_name := "Third-party scripts slowing site",
    category := "Advanced Performance",
    status := if (pages.length : ℚ) * (1/2) < (heavy_third_party : ℚ) then .fail
      else if 0 < heavy_third_party then .warning else .pass,
    impact_score := 80 }

/-- Commerce keyword list of `check_ecommerce_tracking`. -/
def ecommerce_keywords : List String :=
  ["add to cart", "buy now", "checkout", "product", "price"]

/-- `comprehensive_checks.py` `AdvancedChecks.check_ecommerce_tracking`. -/
def check_ecommerce_tracking (pages : List CrawledPage) : CheckResult :=
  let has_ecommerce := pages.any (fun p =>
    ecommerce_keywords.any (fun kw => pyIn kw p.html.toLower))
  { check_name := "E-commerce tracking not set up",
    category := "Advanced Analytics",
    status := if has_ecommerce then .info else .pass,
    impact_score := 60 }

/-- `comprehensive_checks.py`
`AdvancedChecks.check_core_web_vitals_tracking` (informational
placeholder). -/
def check_core_web_vitals_tracking (pages : List CrawledPage) : CheckResult :=
  let _ := pages
  { check_name := "Core Web Vitals tracking not configured",
    category := "Advanced Analytics", status := .info, impact_score := 85 }

/-- `comprehensive_checks.py` `AdvancedChecks.check_international_seo_setup`. -/
def check_international_seo_setup (soup : Soup) (pages : List CrawledPage) :
    CheckResult :=
  let has_hreflang := pages.any (fun p => soup.hasHreflangLink p.html)
  { check_name := "International SEO not configured",
    category := "Advanced Technical",
    status := if has_hreflang then .pass else .info,
    impact_score := 70 }

end AdvancedChecks

/-- `comprehensive_checks.py` `run_all_comprehensive_checks`: return `[]` for
an empty page list, otherwise default `website_data` to the empty mapping and
run all 132 registered checks in registration order. -/
def run_all_comprehensive_checks (soup : Soup) (pages : List CrawledPage)
    (website_data : Option WebsiteData) : List CheckResult :=
  if pages.isEmpty then []
  else
    let wd := website_data.getD []
    [TechnicalSEOChecks.check_meta_robots pages,
     TechnicalSEOChecks.check_og_tags soup pages,
     TechnicalSEOChecks.check_twitter_cards soup pages,
     TechnicalSEOChecks.check_meta_charset soup pages,
     TechnicalSEOChecks.check_meta_language soup pages,
     TechnicalSEOChecks.check_viewport pages,
     TechnicalSEOChecks.check_user_scalable soup pages,
     TechnicalSEOChecks.check_mobile_friendly pages,
     TechnicalSEOChecks.check_sitemap_in_robots pages wd,
     TechnicalSEOChecks.check_https pages,
     TechnicalSEOChecks.check_canonical pages,
     TechnicalSEOChecks.check_structured_data pages,
     TechnicalSEOChecks.check_redirects pages,
     TechnicalSEOChecks.check_url_structure pages,
     TechnicalSEOChecks.check_hreflang pages,
     TechnicalSEOChecks.check_mixed_content pages,
     TechnicalSEOChecks.check_ssl_certificate pages,
     TechnicalSEOChecks.check_multiple_canonicals soup pages,
     TechnicalSEOChecks.check_canonical_pointing_nonindexable pages,
     TechnicalSEOChecks.check_invalid_schema pages,
     TechnicalSEOChecks.check_url_length pages,
     TechnicalSEOChecks.check_url_case_underscores pages,
     TechnicalSEOChecks.check_404_errors pages,
     TechnicalSEOChecks.check_redirect_loops pages,
     TechnicalSEOChecks.check_excessive_redirects pages,
     TechnicalSEOChecks.check_microdata_issues pages,
     TechnicalSEOChecks.check_html_size pages,
     TechnicalSEOChecks.check_cdn_implementation pages,
     PerformanceChecks.check_load_time pages,
     PerformanceChecks.check_lcp pages,
     PerformanceChecks.check_fid pages,
     PerformanceChecks.check_cls pages,
     PerformanceChecks.check_ttfb pages,
     PerformanceChecks.check_image_optimization pages,
     PerformanceChecks.check_modern_image_formats pages,
     PerformanceChecks.check_lazy_loading pages,
     PerformanceChecks.check_caching pages,
     PerformanceChecks.check_minification pages,
     PerformanceChecks.check_http2 pages,
     PerformanceChecks.check_render_blocking soup pages,
     PerformanceChecks.check_dom_size soup pages,
     PerformanceChecks.check_interaction_to_next_paint pages,
     PerformanceChecks.check_desktop_performance pages,
     PerformanceChecks.check_mobile_performance pages,
     PerformanceChecks.check_third_party_scripts soup pages,
     PerformanceChecks.check_resource_preloading pages,
     PerformanceChecks.check_compressed_resources pages,
     OnPageSEOChecks.check_title_tags pages,
     OnPageSEOChecks.check_meta_descriptions pages,
     OnPageSEOChecks.check_h1_tags pages,
     OnPageSEOChecks.check_heading_hierarchy soup pages,
     OnPageSEOChecks.check_image_alt_text pages,
     OnPageSEOChecks.check_internal_linking pages,
     OnPageSEOChecks.check_broken_links pages,
     OnPageSEOChecks.check_breadcrumbs soup pages,
     OnPageSEOChecks.check_duplicate_titles pages,
     OnPageSEOChecks.check_duplicate_descriptions pages,
     OnPageSEOChecks.check_duplicate_h1 pages,
     OnPageSEOChecks.check_keyword_in_title pages,
     OnPageSEOChecks.check_title_search_intent pages,
     OnPageSEOChecks.check_description_cta pages,
     OnPageSEOChecks.check_keyword_in_h1 pages,
     OnPageSEOChecks.check_missing_h2 pages,
     OnPageSEOChecks.check_heading_formatting pages,
     OnPageSEOChecks.check_alt_text_quality pages,
     OnPageSEOChecks.check_alt_keyword_stuffing pages,
     OnPageSEOChecks.check_decorative_images_alt pages,
     OnPageSEOChecks.check_contextual_anchor_text pages,
     OnPageSEOChecks.check_orphan_pages pages,
     OnPageSEOChecks.check_deep_pages pages,
     OnPageSEOChecks.check_table_of_contents pages,
     OnPageSEOChecks.check_author_info pages,
     OnPageSEOChecks.check_publish_date pages,
     OnPageSEOChecks.check_related_content pages,
     OnPageSEOChecks.check_jump_links pages,
     ContentChecks.check_content_length pages,
     ContentChecks.check_content_freshness pages,
     ContentChecks.check_duplicate_content pages,
     ContentChecks.check_readability soup pages,
     ContentChecks.check_content_comprehensive pages,
     ContentChecks.check_ai_generated_content pages,
     ContentChecks.check_keyword_density pages,
     ContentChecks.check_semantic_keywords pages,
     ContentChecks.check_search_intent_match pages,
     ContentChecks.check_content_update_schedule pages,
     SocialMediaChecks.check_social_presence pages,
     SocialMediaChecks.check_social_sharing pages,
     SocialMediaChecks.check_social_media_links_prominent pages,
     SocialMediaChecks.check_consistent_branding pages,
     SocialMediaChecks.check_social_proof pages,
     OffPageSEOChecks.check_domain_authority,
     OffPageSEOChecks.check_domain_rating,
     OffPageSEOChecks.check_referring_domains,
     OffPageSEOChecks.check_low_authority_backlinks,
     OffPageSEOChecks.check_spam_score,
     OffPageSEOChecks.check_anchor_text,
     OffPageSEOChecks.check_nofollow_ratio,
     OffPageSEOChecks.check_directory_citations,
     OffPageSEOChecks.check_guest_posting,
     OffPageSEOChecks.check_competitor_backlink_gap,
     AnalyticsChecks.check_google_analytics pages,
     AnalyticsChecks.check_google_tag_manager pages,
     AnalyticsChecks.check_search_console pages,
     AnalyticsChecks.check_conversion_tracking pages,
     AnalyticsChecks.check_data_quality pages,
     AnalyticsChecks.check_custom_events pages,
     GEOAEOChecks.check_faq_schema pages,
     GEOAEOChecks.check_howto_schema pages,
     GEOAEOChecks.check_ai_overview_ranking pages,
     GEOAEOChecks.check_voice_search_optimization pages,
     GEOAEOChecks.check_organization_schema pages,
     GEOAEOChecks.check_local_business_schema pages,
     GEOAEOChecks.check_google_business_profile pages,
     GEOAEOChecks.check_nap_consistency pages,
     AdvancedChecks.check_robots_txt_valid pages,
     AdvancedChecks.check_sitemap_xml pages,
     AdvancedChecks.check_pagination_tags pages,
     AdvancedChecks.check_amp_implementation pages,
     AdvancedChecks.check_pwa_optimization pages,
     AdvancedChecks.check_security_headers pages,
     AdvancedChecks.check_privacy_policy pages,
     AdvancedChecks.check_cookie_consent pages,
     AdvancedChecks.check_wcag_accessibility pages,
     AdvancedChecks.check_color_contrast pages,
     AdvancedChecks.check_keyboard_navigation pages,
     AdvancedChecks.check_http2_enabled pages,
     AdvancedChecks.check_resource_hints soup pages,
     AdvancedChecks.check_dom_size soup pages,
     AdvancedChecks.check_third_party_scripts soup pages,
     AdvancedChecks.check_ecommerce_tracking pages,
     AdvancedChecks.check_core_web_vitals_tracking pages,
     AdvancedChecks.check_international_seo_setup soup pages]

end Comprehensive

/-! ### Concrete data used by witnesses and counterexamples -/

/-- A check result with the given status and impact (names are irrelevant to
the aggregation). -/
def exampleCheck (st : CheckStatus) (impact : ℤ) : CheckResult :=
  { check_name := "example", category := "Example", status := st,
    impact_score := impact }

/-- The aggregation example of the specification: ten results, seven passing,
failures with impact 80 and 50, one warning with impact 60. -/
def c1ExampleResults : List CheckResult :=
  List.replicate 7 (exampleCheck .pass 50) ++
    [exampleCheck .fail 80, exampleCheck .fail 50, exampleCheck .warning 60]

/-- Root page of a two-page demo site whose root links to the same path under
two different query strings. -/
def demoRootPage : CrawledPage :=
  { url := "https://x.com/", html := "", status_code := 200,
    links := ["https://x.com/a?page=1", "https://x.com/a?page=2"] }

/-- The single content page of the demo site. -/
def demoAPage : CrawledPage :=
  { url := "https://x.com/a", html := "", status_code := 200 }

/-- Fetch oracle of the demo site. -/
def demoFetch (u : String) : Option CrawledPage :=
  if u == "https://x.com/" then some demoRootPage
  else if u == "https://x.com/a" then some demoAPage
  else none

/-- A page with a title of exactly 30 characters (the lower boundary). -/
def boundaryTitlePage30 : CrawledPage :=
  { url := "https://x.com/t30", html := "", status_code := 200,
    title := some "012345678901234567890123456789" }

/-- A page with a title of exactly 60 characters (the upper boundary). -/
def boundaryTitlePage60 : CrawledPage :=
  { url := "https://x.com/t60", html := "", status_code := 200,
    title := some
      "012345678901234567890123456789012345678901234567890123456789" }

/-- A page with 150 words of content (below the thin-content threshold). -/
def thinContentPage : CrawledPage :=
  { url := "https://x.com/thin", html := "", status_code := 200,
    word_count := 150 }

/-! ### Theorems for the claims -/

/-- C3: running the check registry on an empty page list returns the empty
list and never raises; `run_all_checks([])` and
`run_all_comprehensive_checks([])` are `[]` for every parser behavior and
every value of the optional `website_data` argument. -/
theorem run_all_checks_empty_input :
    Checks.run_all_checks [] = [] ∧
    ∀ (soup : Soup) (wd : Option WebsiteData),
      Comprehensive.run_all_comprehensive_checks soup [] wd = [] :=
  ⟨rfl, fun _ _ => rfl⟩

/-- C5: each of the ten Off-Page SEO checks of the registry takes no page
input and returns a result with status exactly `info` and a nonzero declared
`impact_score`; as zero-argument constants this holds for every invocation. -/
theorem off_page_checks_all_info :
    ∀ r ∈ [Comprehensive.OffPageSEOChecks.check_domain_authority,
           Comprehensive.OffPageSEOChecks.check_domain_rating,
           Comprehensive.OffPageSEOChecks.check_referring_domains,
           Comprehensive.OffPageSEOChecks.check_low_authority_backlinks,
           Comprehensive.OffPageSEOChecks.check_spam_score,
           Comprehensive.OffPageSEOChecks.check_anchor_text,
           Comprehensive.OffPageSEOChecks.check_nofollow_ratio,
           Comprehensive.OffPageSEOChecks.check_directory_citations,
           Comprehensive.OffPageSEOChecks.check_guest_posting,
           Comprehensive.OffPageSEOChecks.check_competitor_backlink_gap],
      r.status = CheckStatus.info ∧ r.impact_score ≠ 0 := by
  decide

/-- Witness for C5 at the first off-page check. -/
theorem off_page_checks_all_info_witness :
    Comprehensive.OffPageSEOChecks.check_domain_authority.status
      = CheckStatus.info ∧
    Comprehensive.OffPageSEOChecks.check_domain_authority.impact_score ≠ 0 :=
  off_page_checks_all_info Comprehensive.OffPageSEOChecks.check_domain_authority
    (by decide)

/-- C8: for every nonempty page list in which every page is below the 300-word
thin-content threshold (in particular with an average word count of 150), both
versions of `check_content_length` return status `fail`. -/
theorem check_content_length_all_thin_fails (pages : List CrawledPage)
    (hne : pages ≠ [])
    (hthin : ∀ p ∈ pages, p.word_count < 300)
    (_havg : (pages.map (fun p => (p.word_count : ℚ))).sum / (pages.length : ℚ)
      = 150) :
    (Checks.ContentChecks.check_content_length pages).status = CheckStatus.fail ∧
    (Comprehensive.ContentChecks.check_content_length pages).status
      = CheckStatus.fail := by
  have hfilter : pages.filter (fun p => decide (p.word_count < 300)) = pages :=
    List.filter_eq_self.mpr fun p hp => by simpa using hthin p hp
  have hlen : 0 < pages.length := List.length_pos.mpr hne
  have hq : (pages.length : ℚ) * (4/10) < ((pages.length : ℚ)) := by
    have h1 : (0 : ℚ) < (pages.length : ℚ) := by exact_mod_cast hlen
    linarith
  refine ⟨?_, ?_⟩
  · simp only [Checks.ContentChecks.check_content_length, hfilter, if_pos hq]
  · simp only [Comprehensive.ContentChecks.check_content_length, hfilter,
      if_pos hq]

/-- Witness for C8 at a concrete one-page crawl with 150 words. -/
theorem check_content_length_all_thin_fails_witness :
    (Checks.ContentChecks.check_content_length [thinContentPage]).status
      = CheckStatus.fail ∧
    (Comprehensive.ContentChecks.check_content_length [thinContentPage]).status
      = CheckStatus.fail :=
  check_content_length_all_thin_fails [thinContentPage] (by decide) (by decide)
    (by norm_num [thinContentPage])

/-- Helper for C9: the issue accumulation of the `checks.py` title check adds
nothing when every title is present with length between 30 and 60. -/
theorem checks_title_fold_id (pages : List CrawledPage)
    (h : ∀ p ∈ pages, ∃ t, p.title = some t ∧ 30 ≤ t.length ∧ t.length ≤ 60) :
    ∀ acc : List String,
      pages.foldl (fun issues p =>
        if falsyStr p.title then issues ++ [p.url ++ ": Missing title"]
        else
          let t := p.title.getD ""
          if t.length < 30 then
            issues ++ [p.url ++ ": Title too short (" ++ toString t.length ++ " chars)"]
          else if 60 < t.length then
            issues ++ [p.url ++ ": Title too long (" ++ toString t.length ++ " chars)"]
          else issues) acc = acc := by
  induction pages with
  | nil => intro acc; rfl
  | cons p rest ih =>
    intro acc
    obtain ⟨t, ht, h30, h60⟩ := h p (List.mem_cons_self p rest)
    have hne : t.isEmpty = false := by
      by_cases he : t.isEmpty
      · exfalso
        have ht0 : t = "" := (String.isEmpty_iff t).mp he
        rw [ht0] at h30
        simp at h30
      · simpa using he
    have hstep : (if falsyStr p.title then acc ++ [p.url ++ ": Missing title"]
        else
          let t2 := p.title.getD ""
          if t2.length < 30 then
            acc ++ [p.url ++ ": Title too short (" ++ toString t2.length ++ " chars)"]
          else if 60 < t2.length then
            acc ++ [p.url ++ ": Title too long (" ++ toString t2.length ++ " chars)"]
          else acc) = acc := by
      rw [ht]
      simp only [falsyStr, hne, Option.getD_some, Bool.false_eq_true,
        if_false]
      rw [if_neg (by omega), if_neg (by omega)]
    rw [List.foldl_cons]
    rw [hstep]
    exact ih (fun q hq => h q (List.mem_cons_of_mem p hq)) acc

/-- C9: when every page has a title whose length lies in the inclusive range
30 to 60 (in particular a title of exactly 30 or exactly 60 characters), both
title checks collect no issue and return status `pass`. -/
theorem title_length_boundary_inclusive (pages : List CrawledPage)
    (h : ∀ p ∈ pages, ∃ t, p.title = some t ∧ 30 ≤ t.length ∧ t.length ≤ 60) :
    Checks.OnPageSEOChecks.title_issues pages = [] ∧
    Comprehensive.OnPageSEOChecks.title_issues pages = [] ∧
    (Checks.OnPageSEOChecks.check_title_tags pages).status = CheckStatus.pass ∧
    (Comprehensive.OnPageSEOChecks.check_title_tags pages).status
      = CheckStatus.pass := by
  have hfold := checks_title_fold_id pages h []
  have h1 : Checks.OnPageSEOChecks.title_issues pages = [] := hfold
  have h2 : Comprehensive.OnPageSEOChecks.title_issues pages = [] := hfold
  have hfal : ∀ p ∈ pages, ¬ (falsyStr p.title = true) := by
    intro p hp hcon
    obtain ⟨t, ht, h30, _⟩ := h p hp
    rw [ht] at hcon
    have ht0 : t = "" := (String.isEmpty_iff t).mp (by simpa [falsyStr] using hcon)
    rw [ht0] at h30
    simp at h30
  have hmiss : pages.filter (fun p => falsyStr p.title) = [] :=
    List.filter_eq_nil_iff.mpr hfal
  have hq0 : (0 : ℚ) ≤ (pages.length : ℚ) * (3/10) := by positivity
  have hq : ¬ ((pages.length : ℚ) * (3/10) < (([] : List String).length : ℚ)) := by
    rw [show (([] : List String).length : ℚ) = 0 by simp]
    exact not_lt.mpr hq0
  refine ⟨h1, h2, ?_, ?_⟩
  · simp only [Checks.OnPageSEOChecks.check_title_tags, h1, if_neg hq]
    simp
  · simp only [Comprehensive.OnPageSEOChecks.check_title_tags, hmiss, h2]
    simp

/-- Witness for C9 at a concrete crawl with a 30-character and a 60-character
title. -/
theorem title_length_boundary_inclusive_witness :
    Checks.OnPageSEOChecks.title_issues [boundaryTitlePage30, boundaryTitlePage60]
      = [] ∧
    Comprehensive.OnPageSEOChecks.title_issues
      [boundaryTitlePage30, boundaryTitlePage60] = [] ∧
    (Checks.OnPageSEOChecks.check_title_tags
      [boundaryTitlePage30, boundaryTitlePage60]).status = CheckStatus.pass ∧
    (Comprehensive.OnPageSEOChecks.check_title_tags
      [boundaryTitlePage30, boundaryTitlePage60]).status = CheckStatus.pass :=
  title_length_boundary_inclusive [boundaryTitlePage30, boundaryTitlePage60]
    (by
      intro p hp
      rcases List.mem_cons.mp hp with rfl | hp2
      · exact ⟨_, rfl, by decide, by decide⟩
      · rcases List.mem_cons.mp hp2 with rfl | hp3
        · exact ⟨_, rfl, by decide, by decide⟩
        · cases hp3)

/-- Helper: closed form of the counting loop of `process_audit` (counts are
`countP` by status, the accumulated impact is the failure-impact sum plus half
the warning-impact sum). -/
theorem auditTotals_closed (l : List CheckResult) :
    auditTotals l =
      { passed := l.countP (fun r => r.status == CheckStatus.pass),
        failed := l.countP (fun r => r.status == CheckStatus.fail),
        warning := l.countP (fun r => r.status == CheckStatus.warning),
        total_impact :=
          ((l.filter (fun r => r.status == CheckStatus.fail)).map
            (fun r => (r.impact_score : ℚ))).sum
          + (1/2) * ((l.filter (fun r => r.status == CheckStatus.warning)).map
            (fun r => (r.impact_score : ℚ))).sum } := by
  induction l using List.reverseRecOn with
  | nil => norm_num [auditTotals]
  | append_singleton l r ih =>
    unfold auditTotals at ih ⊢
    rw [List.foldl_append, List.foldl_cons, List.foldl_nil, ih]
    cases hr : r.status <;>
      simp [hr, List.countP_append, List.filter_append, List.countP_cons,
        List.filter_cons, AuditTotals.mk.injEq] <;>
      ring

/-- C1: refinement of the aggregation against the formula of the
specification.  For every result list the persisted `overall_score` equals the
specification score (clamped base minus penalty, rounded to one decimal
place), and at the specification example (ten checks, seven passing, failures
of impact 80 and 50, a warning of impact 60) it equals 65.2. -/
theorem aggregation_matches_spec_formula :
    (∀ results : List CheckResult,
      (processAuditOutcome results).overall_score = specOverallScore results) ∧
    (processAuditOutcome c1ExampleResults).overall_score = 652 / 10 := by
  have hmain : ∀ results : List CheckResult,
      (processAuditOutcome results).overall_score = specOverallScore results := by
    intro results
    simp only [processAuditOutcome, specOverallScore, overallScore,
      auditTotals_closed]
    by_cases h : results.length = 0
    · rw [if_neg (by omega), if_pos h, if_pos h]
      norm_num [round1, roundHalfEven]
    · have h0 : 0 < results.length := Nat.pos_of_ne_zero h
      rw [if_pos h0, if_neg h, if_neg h, List.countP_eq_length_filter]
  refine ⟨hmain, ?_⟩
  have hexp : c1ExampleResults =
      [exampleCheck .pass 50, exampleCheck .pass 50, exampleCheck .pass 50,
       exampleCheck .pass 50, exampleCheck .pass 50, exampleCheck .pass 50,
       exampleCheck .pass 50, exampleCheck .fail 80, exampleCheck .fail 50,
       exampleCheck .warning 60] := by
    simp [c1ExampleResults, List.replicate]
  have htot : auditTotals c1ExampleResults = ⟨7, 2, 1, 160⟩ := by
    rw [hexp]
    simp only [auditTotals, exampleCheck, List.foldl]
    norm_num [AuditTotals.mk.injEq]
  have hlen : c1ExampleResults.length = 10 := by rw [hexp]; rfl
  have hov : overallScore c1ExampleResults = 326/5 := by
    simp only [overallScore, htot, hlen]
    norm_num [min_def, max_def]
  show round1 (overallScore c1ExampleResults) = 652 / 10
  rw [hov]
  have h652 : (326 : ℚ)/5 * 10 = ((652 : ℤ) : ℚ) := by norm_num
  simp only [round1, roundHalfEven, h652, Int.floor_intCast]
  norm_num

/-- C7: the persisted counts satisfy
`checks_passed + checks_failed + checks_warning ≤ total_checks_run`, with
equality exactly when no check returned status `info`. -/
theorem status_count_consistency (results : List CheckResult) :
    (processAuditOutcome results).checks_passed
        + (processAuditOutcome results).checks_failed
        + (processAuditOutcome results).checks_warning
      ≤ (processAuditOutcome results).total_checks_run ∧
    ((processAuditOutcome results).checks_passed
        + (processAuditOutcome results).checks_failed
        + (processAuditOutcome results).checks_warning
      = (processAuditOutcome results).total_checks_run
     ↔ ∀ r ∈ results, r.status ≠ CheckStatus.info) := by
  have hsum : results.countP (fun r => r.status == CheckStatus.pass)
      + results.countP (fun r => r.status == CheckStatus.fail)
      + results.countP (fun r => r.status == CheckStatus.warning)
      + results.countP (fun r => r.status == CheckStatus.info)
      = results.length := by
    induction results with
    | nil => rfl
    | cons r rest ih =>
      cases hr : r.status <;> simp [List.countP_cons, hr] <;> omega
  simp only [processAuditOutcome, auditTotals_closed]
  refine ⟨by omega, ?_, ?_⟩
  · intro he r hr hcon
    have hpos : 0 < results.countP (fun r => r.status == CheckStatus.info) :=
      List.countP_pos_iff.mpr ⟨r, hr, by simp [hcon]⟩
    omega
  · intro hall
    have hinfo : results.countP (fun r => r.status == CheckStatus.info) = 0 :=
      List.countP_eq_zero.mpr fun r hr => by simpa using hall r hr
    omega

/-- Helper for C2: the crawl loop never grows the page list beyond the page
budget, for every fuel value. -/
theorem crawlLoop_pages_le (fetch : String → Option CrawledPage)
    (maxPages : ℕ) (base : String) :
    ∀ (fuel : ℕ) (frontier visited : List String) (pages : List CrawledPage)
      (fetched : List String),
      pages.length ≤ maxPages →
      (crawlLoop fetch maxPages base fuel frontier visited pages
        fetched).pages.length ≤ maxPages := by
  intro fuel
  induction fuel with
  | zero =>
    intro frontier visited pages fetched h
    simpa [crawlLoop] using h
  | succ n ih =>
    intro frontier visited pages fetched h
    cases frontier with
    | nil => simpa [crawlLoop] using h
    | cons current rest =>
      simp only [crawlLoop]
      split
      · simpa using h
      · rename_i hfull
        split
        · exact ih rest visited pages fetched h
        · cases hfetch : fetch (normalizeUrl current) with
          | none =>
            exact ih rest (visited ++ [normalizeUrl current]) pages
              (fetched ++ [normalizeUrl current]) h
          | some page =>
            refine ih _ _ _ _ ?_
            have hlt : pages.length < maxPages := by omega
            simp
            omega

/-- Helper for C2: the trace of URLs handed to the fetcher stays duplicate
free, because a URL is added to the visited set right before being fetched and
the visited set only grows. -/
theorem crawlLoop_no_refetch (fetch : String → Option CrawledPage)
    (maxPages : ℕ) (base : String) :
    ∀ (fuel : ℕ) (frontier visited : List String) (pages : List CrawledPage)
      (fetched : List String),
      fetched.Nodup → (∀ u ∈ fetched, u ∈ visited) →
      (crawlLoop fetch maxPages base fuel frontier visited pages
        fetched).fetched.Nodup ∧
      ∀ u ∈ (crawlLoop fetch maxPages base fuel frontier visited pages
        fetched).fetched,
        u ∈ (crawlLoop fetch maxPages base fuel frontier visited pages
          fetched).visited := by
  intro fuel
  induction fuel with
  | zero =>
    intro frontier visited pages fetched h1 h2
    exact ⟨h1, h2⟩
  | succ n ih =>
    intro frontier visited pages fetched h1 h2
    cases frontier with
    | nil => exact ⟨h1, h2⟩
    | cons current rest =>
      simp only [crawlLoop]
      split
      · exact ⟨h1, h2⟩
      · split
        · exact ih rest visited pages fetched h1 h2
        · rename_i hnotvis
          have hsub2 : ∀ u ∈ fetched ++ [normalizeUrl current],
              u ∈ visited ++ [normalizeUrl current] := by
            intro u hu
            rcases List.mem_append.mp hu with hu | hu
            · exact List.mem_append_left _ (h2 u hu)
            · exact List.mem_append_right _ hu
          have hnd2 : (fetched ++ [normalizeUrl current]).Nodup := by
            refine List.Nodup.append h1 (List.nodup_singleton _) ?_
            intro u hu hu2
            rw [List.mem_singleton] at hu2
            subst hu2
            exact hnotvis (List.elem_eq_true_of_mem (h2 _ hu))
          cases hfetch : fetch (normalizeUrl current) with
          | none =>
            exact ih rest (visited ++ [normalizeUrl current]) pages
              (fetched ++ [normalizeUrl current]) hnd2 hsub2
          | some page =>
            exact ih _ (visited ++ [normalizeUrl current]) (pages ++ [page])
              (fetched ++ [normalizeUrl current]) hnd2 hsub2

/-- C2: for every fetch oracle, seed URL and page budget `N ≥ 1`, a crawl
returns at most `N` PageRecords and never hands the same normalized URL to the
fetcher twice (for every fuel value, hence for the unbounded source loop). -/
theorem crawl_budget_and_no_revisit (fetch : String → Option CrawledPage)
    (seed : String) (N fuel : ℕ) (_h : 1 ≤ N) :
    (crawl fetch N fuel seed).pages.length ≤ N ∧
    (crawl fetch N fuel seed).fetched.Nodup := by
  have h0 : ([] : List CrawledPage).length ≤ N := by simp
  constructor
  · simp only [crawl]
    exact crawlLoop_pages_le fetch N _ fuel [seed] [] [] [] h0
  · simp only [crawl]
    exact (crawlLoop_no_refetch fetch N _ fuel [seed] [] [] [] List.nodup_nil
      (by simp)).1

/-- Witness for C2 at a concrete budget and seed. -/
theorem crawl_budget_and_no_revisit_witness :
    (crawl (fun _ => none) 1 5 "https://x.com/").pages.length ≤ 1 ∧
    (crawl (fun _ => none) 1 5 "https://x.com/").fetched.Nodup :=
  crawl_budget_and_no_revisit (fun _ => none) "https://x.com/" 1 5 (by decide)

set_option maxHeartbeats 1000000 in
/-- Helper for C10: the normalized form of a URL with the fixed prefix
"https://x.com/a?" does not depend on the query characters after the first
question mark. -/
theorem normalizeUrlL_drops_query (q : List Char) :
    normalizeUrlL ("https://x.com/a?".data ++ q) = "https://x.com/a".data := rfl

set_option maxHeartbeats 2000000 in
/-- C10: URL normalization keeps only scheme, host and path, so two URLs that
differ only in their query string normalize to the same key; in the demo crawl
whose root links to "https://x.com/a?page=1" and "https://x.com/a?page=2", the
two links dedupe and exactly one PageRecord is produced for that path (the
crawl yields the root plus a single page for "https://x.com/a"). -/
theorem normalization_discards_query_string :
    (∀ q1 q2 : String,
      normalizeUrl ("https://x.com/a?" ++ q1)
        = normalizeUrl ("https://x.com/a?" ++ q2)) ∧
    (crawl demoFetch 10 20 "https://x.com/").pages.map (fun p => p.url)
      = ["https://x.com/", "https://x.com/a"] := by
  constructor
  · intro q1 q2
    show (⟨normalizeUrlL ("https://x.com/a?" ++ q1).data⟩ : String)
      = ⟨normalizeUrlL ("https://x.com/a?" ++ q2).data⟩
    rw [String.data_append, String.data_append, normalizeUrlL_drops_query,
      normalizeUrlL_drops_query]
  · rfl

/-- Characters are equal iff their code points are equal. -/
theorem char_eq_iff_toNat (c d : Char) : c = d ↔ c.toNat = d.toNat :=
  ⟨fun h => h ▸ rfl, fun h => Char.eq_of_val_eq (UInt32.toNat.inj h)⟩

/-- Code-point characterization of the URL scheme characters. -/
theorem isSchemeChar_iff (c : Char) : isSchemeChar c = true ↔
    (c.toNat = 43 ∨ c.toNat = 45 ∨ c.toNat = 46 ∨ (48 ≤ c.toNat ∧ c.toNat ≤ 57)
      ∨ (65 ≤ c.toNat ∧ c.toNat ≤ 90) ∨ (97 ≤ c.toNat ∧ c.toNat ≤ 122)) := by
  simp only [isSchemeChar, Char.isAlphanum, Char.isAlpha, Char.isUpper,
    Char.isLower, Char.isDigit, Bool.or_eq_true, decide_eq_true_eq,
    Bool.and_eq_true, beq_iff_eq]
  rw [char_eq_iff_toNat c '+', char_eq_iff_toNat c '-', char_eq_iff_toNat c '.']
  show ((((65 ≤ c.toNat ∧ c.toNat ≤ 90 ∨ 97 ≤ c.toNat ∧ c.toNat ≤ 122)
      ∨ 48 ≤ c.toNat ∧ c.toNat ≤ 57) ∨ c.toNat = 43) ∨ c.toNat = 45)
      ∨ c.toNat = 46 ↔ c.toNat = 43 ∨ c.toNat = 45 ∨ c.toNat = 46
      ∨ 48 ≤ c.toNat ∧ c.toNat ≤ 57 ∨ 65 ≤ c.toNat ∧ c.toNat ≤ 90
      ∨ 97 ≤ c.toNat ∧ c.toNat ≤ 122
  omega

theorem ofNat_toNat_lt (n : ℕ) (h : n < 55296) : (Char.ofNat n).toNat = n := by
  simp only [Char.ofNat]
  rw [dif_pos (Or.inl h)]
  simp [Char.ofNatAux, Char.toNat, UInt32.toNat, BitVec.toNat_ofNatLt]

/-- Code point of `Char.toLower`: uppercase ASCII shifts by 32, all else fixed. -/
theorem toLower_toNat (c : Char) :
    (Char.toLower c).toNat
      = if 65 ≤ c.toNat ∧ c.toNat ≤ 90 then c.toNat + 32 else c.toNat := by
  simp only [Char.toLower]
  by_cases h : 65 ≤ c.toNat ∧ c.toNat ≤ 90
  · rw [if_pos h, if_pos h]
    exact ofNat_toNat_lt _ (by omega)
  · rw [if_neg h, if_neg h]

theorem toLower_eq_self (c : Char) (h : ¬(65 ≤ c.toNat ∧ c.toNat ≤ 90)) :
    Char.toLower c = c := by
  simp only [Char.toLower]
  rw [if_neg h]

/-- ASCII lowercasing is idempotent. -/
theorem toLower_toLower (c : Char) :
    Char.toLower (Char.toLower c) = Char.toLower c := by
  apply toLower_eq_self
  rw [toLower_toNat]
  by_cases h : 65 ≤ c.toNat ∧ c.toNat ≤ 90
  · rw [if_pos h]; omega
  · rw [if_neg h]; omega

theorem isAlpha_iff (c : Char) : c.isAlpha = true ↔
    (65 ≤ c.toNat ∧ c.toNat ≤ 90) ∨ (97 ≤ c.toNat ∧ c.toNat ≤ 122) := by
  simp only [Char.isAlpha, Char.isUpper, Char.isLower, Bool.or_eq_true,
    Bool.and_eq_true, decide_eq_true_eq]
  show (65 ≤ c.toNat ∧ c.toNat ≤ 90) ∨ (97 ≤ c.toNat ∧ c.toNat ≤ 122) ↔ _
  exact Iff.rfl

theorem isC0_iff (c : Char) : isC0ControlOrSpace c = true ↔ c.toNat ≤ 32 := by
  simp only [isC0ControlOrSpace, decide_eq_true_eq]
  show c.toNat ≤ 32 ↔ _
  exact Iff.rfl

theorem isAscii_iff (c : Char) : isAsciiChar c = true ↔ c.toNat < 128 := by
  simp only [isAsciiChar, decide_eq_true_eq]
  show c.toNat < 128 ↔ _
  exact Iff.rfl

theorem isUnsafe_iff (c : Char) : isUnsafeUrlByte c = true ↔
    (c.toNat = 9 ∨ c.toNat = 13 ∨ c.toNat = 10) := by
  simp only [isUnsafeUrlByte, Bool.or_eq_true, beq_iff_eq]
  rw [char_eq_iff_toNat c '\t', char_eq_iff_toNat c '\r', char_eq_iff_toNat c '\n']
  show (c.toNat = 9 ∨ c.toNat = 13) ∨ c.toNat = 10 ↔ _
  omega

theorem isSchemeChar_toLower (c : Char) (h : isSchemeChar c = true) :
    isSchemeChar (Char.toLower c) = true := by
  rw [isSchemeChar_iff] at h ⊢
  rw [toLower_toNat]
  split <;> omega

theorem isAlpha_toLower (c : Char) (h : c.isAlpha = true) :
    (Char.toLower c).isAlpha = true := by
  rw [isAlpha_iff] at h ⊢
  rw [toLower_toNat]
  split <;> omega

theorem schemeChar_ne_colon (c : Char) (h : isSchemeChar c = true) :
    (c == ':') = false := by
  rw [beq_eq_false_iff_ne]
  intro he
  rw [isSchemeChar_iff] at h
  rw [char_eq_iff_toNat] at he
  revert he
  show ¬ c.toNat = 58
  omega

theorem schemeChar_notUnsafeByte (c : Char) (h : isSchemeChar c = true) :
    isUnsafeUrlByte c = false := by
  rw [Bool.eq_false_iff]
  intro hu
  rw [isSchemeChar_iff] at h
  rw [isUnsafe_iff] at hu
  omega

theorem schemeChar_not_c0 (c : Char) (h : isSchemeChar c = true) :
    isC0ControlOrSpace c = false := by
  rw [Bool.eq_false_iff]
  intro hu
  rw [isSchemeChar_iff] at h
  rw [isC0_iff] at hu
  omega

theorem alpha_isAscii (c : Char) (h : c.isAlpha = true) :
    isAsciiChar c = true := by
  rw [isAlpha_iff] at h
  rw [isAscii_iff]
  omega

theorem takeWhile_all_append {α : Type} (p : α → Bool) (l1 l2 : List α)
    (h : ∀ c ∈ l1, p c = true) :
    (l1 ++ l2).takeWhile p = l1 ++ l2.takeWhile p := by
  induction l1 with
  | nil => simp
  | cons a t ih =>
    simp only [List.cons_append, List.takeWhile_cons]
    rw [h a (List.mem_cons_self a t)]
    simp only [if_true]
    rw [ih (fun c hc => h c (List.mem_cons_of_mem a hc))]

theorem takeWhile_all {α : Type} (p : α → Bool) (l : List α)
    (h : ∀ c ∈ l, p c = true) : l.takeWhile p = l := by
  have := takeWhile_all_append p l [] h
  simpa using this

theorem drop_length_takeWhile {α : Type} (p : α → Bool) (l : List α) :
    l.drop (l.takeWhile p).length = l.dropWhile p := by
  induction l with
  | nil => rfl
  | cons b t ih =>
    rw [List.takeWhile_cons, List.dropWhile_cons]
    by_cases hb : p b = true
    · rw [if_pos hb, if_pos hb]
      simpa using ih
    · rw [if_neg hb, if_neg hb]
      rfl

theorem takeWhile_append_drop_length {α : Type} (p : α → Bool) (l : List α) :
    l.takeWhile p ++ l.drop (l.takeWhile p).length = l := by
  rw [drop_length_takeWhile]
  exact List.takeWhile_append_dropWhile p l

theorem mem_of_mem_takeWhile {α : Type} {p : α → Bool} {l : List α} {a : α}
    (h : a ∈ l.takeWhile p) : a ∈ l := by
  induction l with
  | nil => simp at h
  | cons b t ih =>
    rw [List.takeWhile_cons] at h
    by_cases hb : p b = true
    · rw [if_pos hb] at h
      rcases List.mem_cons.mp h with rfl | h2
      · exact List.mem_cons_self _ _
      · exact List.mem_cons_of_mem _ (ih h2)
    · rw [if_neg hb] at h
      simp at h

theorem splitOnce_nomem (sep : Char) (l : List Char)
    (h : ∀ c ∈ l, (c == sep) = false) : splitOnce sep l = (l, []) := by
  have hpre : l.takeWhile (fun c => !(c == sep)) = l := by
    apply takeWhile_all
    intro c hc
    rw [h c hc]
    rfl
  simp only [splitOnce, hpre, List.drop_length, List.drop_nil]

/-- Computation of `urlsplit` on a well-formed input of shape
`scheme://netloc+path`: the scheme is lowercased, the netloc extends to the
first of "/", "?", "#", and query and fragment are empty. -/
theorem urlsplit_wf (scheme netloc path2 : List Char)
    (hs1 : scheme ≠ [])
    (hs2 : ∀ c ∈ scheme, isSchemeChar c = true)
    (hs3 : (scheme.headD 'a').isAlpha = true)
    (hnet : ∀ c ∈ netloc, (c == '/') = false ∧ (c == '?') = false
        ∧ (c == '#') = false ∧ isUnsafeUrlByte c = false)
    (hp : ∀ c ∈ path2, (c == '#') = false ∧ (c == '?') = false
        ∧ isUnsafeUrlByte c = false) :
    urlsplit (scheme ++ ':' :: '/' :: '/' :: (netloc ++ path2))
      = ⟨scheme.map Char.toLower,
         netloc ++ path2.takeWhile (fun c => !(c == '/' || c == '?' || c == '#')),
         path2.drop (path2.takeWhile (fun c => !(c == '/' || c == '?' || c == '#'))).length,
         [], []⟩ := by
  obtain ⟨a, s0, rfl⟩ := List.exists_cons_of_ne_nil hs1
  have ha : isSchemeChar a = true := hs2 a (List.mem_cons_self _ _)
  have haAlpha : a.isAlpha = true := by simpa using hs3
  set n := (a :: s0) ++ ':' :: '/' :: '/' :: (netloc ++ path2) with hne
  have hdrop : n.dropWhile isC0ControlOrSpace = n := by
    rw [hne]
    simp only [List.cons_append, List.dropWhile_cons]
    rw [schemeChar_not_c0 a ha]
    simp
  have hfilt : n.filter (fun c => !isUnsafeUrlByte c) = n := by
    apply List.filter_eq_self.mpr
    intro c hc
    rw [hne] at hc
    simp only [List.cons_append, List.mem_cons, List.mem_append] at hc
    rcases hc with rfl | hc | rfl | rfl | rfl | hc | hc
    · rw [schemeChar_notUnsafeByte c ha]; rfl
    · rw [schemeChar_notUnsafeByte c (hs2 c (List.mem_cons_of_mem a hc))]; rfl
    · rfl
    · rfl
    · rfl
    · rw [(hnet c hc).2.2.2]; rfl
    · rw [(hp c hc).2.2]; rfl
  have hpre : n.takeWhile (fun c => !(c == ':')) = a :: s0 := by
    rw [hne]
    rw [takeWhile_all_append _ (a :: s0) _
      (fun c hc => by rw [schemeChar_ne_colon c (hs2 c hc)]; rfl)]
    simp [List.takeWhile_cons]
  have hcont : n.contains ':' = true := by
    apply List.elem_eq_true_of_mem
    rw [hne]
    simp
  simp only [urlsplit]
  rw [hdrop, hfilt, hpre]
  rw [hcont]
  have hempty : (a :: s0).isEmpty = false := rfl
  have hheadD : (a :: s0).headD 'a' = a := rfl
  rw [hempty, hheadD, alpha_isAscii a haAlpha, haAlpha,
    List.all_eq_true.mpr hs2]
  simp only [Bool.not_false, Bool.and_true, Bool.and_self, if_true]
  have hu2 : (n.drop (a :: s0).length).drop 1 = '/' :: '/' :: (netloc ++ path2) := by
    rw [hne, List.drop_left]
    rfl
  rw [hu2]
  have hmatch : (match '/' :: '/' :: (netloc ++ path2) with
      | '/' :: '/' :: rest =>
        (List.takeWhile (fun c => !(c == '/' || c == '?' || c == '#')) rest,
          List.drop (List.takeWhile (fun c => !(c == '/' || c == '?' || c == '#')) rest).length rest)
      | _ => (([] : List Char), '/' :: '/' :: (netloc ++ path2)))
      = (List.takeWhile (fun c => !(c == '/' || c == '?' || c == '#')) (netloc ++ path2),
         List.drop (List.takeWhile (fun c => !(c == '/' || c == '?' || c == '#')) (netloc ++ path2)).length
           (netloc ++ path2)) := rfl
  rw [hmatch]
  have hnet2 : ∀ c ∈ netloc,
      (fun c => !(c == '/' || c == '?' || c == '#')) c = true := by
    intro c hc
    obtain ⟨h1, h2, h3, _⟩ := hnet c hc
    simp only [h1, h2, h3]
    rfl
  rw [takeWhile_all_append _ netloc path2 hnet2]
  have hdrop2 : (netloc ++ path2).drop
      (netloc ++ path2.takeWhile (fun c => !(c == '/' || c == '?' || c == '#'))).length
      = path2.drop (path2.takeWhile (fun c => !(c == '/' || c == '?' || c == '#'))).length := by
    rw [List.length_append, List.drop_append]
  rw [hdrop2]
  have hdsub : ∀ c ∈ path2.drop
      (path2.takeWhile (fun c => !(c == '/' || c == '?' || c == '#'))).length, c ∈ path2 :=
    fun c hc => List.drop_subset _ path2 hc
  rw [splitOnce_nomem '#' _ (fun c hc => (hp c (hdsub c hc)).1)]
  rw [splitOnce_nomem '?' _ (fun c hc => (hp c (hdsub c hc)).2.1)]

theorem contains_eq_false_of_all {l : List Char} {a : Char}
    (h : ∀ c ∈ l, (c == a) = false) : l.contains a = false := by
  have hm : a ∉ l := fun hm => by simpa using h a hm
  simpa using hm

/-- Fixed-point lemma: a URL of shape `scheme://netloc+path` whose components
are already in the normal form produced by `_normalize_url` (lowercase scheme,
clean netloc, path without "#", "?", ";", and no removable trailing slash)
is left unchanged by `normalizeUrlL`. -/
theorem normalizeUrlL_fixed (scheme netloc path2 : List Char)
    (hs1 : scheme ≠ [])
    (hs2 : ∀ c ∈ scheme, isSchemeChar c = true)
    (hs3 : (scheme.headD 'a').isAlpha = true)
    (hlow : scheme.map Char.toLower = scheme)
    (hnet : ∀ c ∈ netloc, (c == '/') = false ∧ (c == '?') = false
        ∧ (c == '#') = false ∧ isUnsafeUrlByte c = false)
    (hp : ∀ c ∈ path2, (c == '#') = false ∧ (c == '?') = false
        ∧ (c == ';') = false ∧ isUnsafeUrlByte c = false)
    (htrail : (scheme ++ ':' :: '/' :: '/' :: (netloc ++ path2)).getLast? = some '/' →
      (path2.drop
        ((path2.takeWhile (fun c => !(c == '/' || c == '?' || c == '#'))).length)).length ≤ 1) :
    normalizeUrlL (scheme ++ ':' :: '/' :: '/' :: (netloc ++ path2))
      = scheme ++ ':' :: '/' :: '/' :: (netloc ++ path2) := by
  have hsplit := urlsplit_wf scheme netloc path2 hs1 hs2 hs3 hnet
    (fun c hc => ⟨(hp c hc).1, (hp c hc).2.1, (hp c hc).2.2.2⟩)
  have hdsub : ∀ c ∈ path2.drop
      ((path2.takeWhile (fun c => !(c == '/' || c == '?' || c == '#'))).length), c ∈ path2 :=
    fun c hc => List.drop_subset _ path2 hc
  have hconts : (path2.drop
      ((path2.takeWhile (fun c => !(c == '/' || c == '?' || c == '#'))).length)).contains ';'
      = false :=
    contains_eq_false_of_all (fun c hc => (hp c (hdsub c hc)).2.2.1)
  have hparse : urlparse (scheme ++ ':' :: '/' :: '/' :: (netloc ++ path2))
      = ⟨scheme, netloc ++ path2.takeWhile (fun c => !(c == '/' || c == '?' || c == '#')),
         path2.drop ((path2.takeWhile (fun c => !(c == '/' || c == '?' || c == '#'))).length),
         [], [], []⟩ := by
    simp only [urlparse, hsplit, hconts, Bool.and_false, Bool.false_eq_true, if_false, hlow]
  simp only [normalizeUrlL, hparse]
  have hassoc : scheme ++ [':', '/', '/']
      ++ (netloc ++ path2.takeWhile (fun c => !(c == '/' || c == '?' || c == '#')))
      ++ path2.drop ((path2.takeWhile (fun c => !(c == '/' || c == '?' || c == '#'))).length)
      = scheme ++ ':' :: '/' :: '/' :: (netloc ++ path2) := by
    simp only [List.append_assoc]
    rw [takeWhile_append_drop_length]
    rfl
  rw [hassoc]
  by_cases hl : (scheme ++ ':' :: '/' :: '/' :: (netloc ++ path2)).getLast? = some '/'
  · have hd1 : (path2.drop
        ((path2.takeWhile (fun c => !(c == '/' || c == '?' || c == '#'))).length)).length ≤ 1 :=
      htrail hl
    have hd : decide (1 < (path2.drop
        ((path2.takeWhile (fun c => !(c == '/' || c == '?' || c == '#'))).length)).length)
        = false := decide_eq_false (by omega)
    rw [hd, Bool.and_false]
    simp
  · have hbeq : ((scheme ++ ':' :: '/' :: '/' :: (netloc ++ path2)).getLast? == some '/')
        = false := by
      rw [beq_eq_false_iff_ne]
      exact hl
    rw [hbeq, Bool.false_and]
    simp

/-- Properties of every `urlsplit` output: the scheme consists of lowercase
scheme characters and starts with a letter when nonempty, the netloc contains
none of "/", "?", "#", and the path contains neither "#" nor "?"; no component
retains tab, CR or LF. -/
theorem urlsplit_props (l : List Char) :
    (∀ c ∈ (urlsplit l).scheme, isSchemeChar c = true) ∧
    ((urlsplit l).scheme ≠ [] → ((urlsplit l).scheme.headD 'a').isAlpha = true) ∧
    ((urlsplit l).scheme.map Char.toLower = (urlsplit l).scheme) ∧
    (∀ c ∈ (urlsplit l).netloc, (c == '/') = false ∧ (c == '?') = false
        ∧ (c == '#') = false ∧ isUnsafeUrlByte c = false) ∧
    (∀ c ∈ (urlsplit l).path, (c == '#') = false ∧ (c == '?') = false
        ∧ isUnsafeUrlByte c = false) := by
  simp only [urlsplit, splitOnce]
  refine ⟨?_, ?_, ?_, ?_, ?_⟩
  · intro c hc
    split at hc
    · rename_i hg
      simp only [Bool.and_eq_true, List.all_eq_true] at hg
      obtain ⟨⟨_, _⟩, hall⟩ := hg
      simp only [List.mem_map] at hc
      obtain ⟨d, hd, rfl⟩ := hc
      exact isSchemeChar_toLower d (hall d hd)
    · simp at hc
  · intro hne
    split at hne
    · rename_i hg
      rw [if_pos hg]
      simp only [Bool.and_eq_true, List.all_eq_true] at hg
      obtain ⟨⟨_, halpha⟩, _⟩ := hg
      revert halpha
      generalize (List.takeWhile (fun c => !(c == ':'))
        ((l.dropWhile isC0ControlOrSpace).filter (fun c => !isUnsafeUrlByte c))) = pre
      cases pre with
      | nil => intro halpha; simp
      | cons a t =>
        intro halpha
        simpa using isAlpha_toLower a (by simpa using halpha)
    · exact absurd rfl hne
  · split
    · rw [List.map_map]
      exact List.map_congr_left (fun c _ => toLower_toLower c)
    · rfl
  · intro c hc
    split at hc
    · rename_i rest heq
      have hrest : ∀ x ∈ rest,
          x ∈ (l.dropWhile isC0ControlOrSpace).filter (fun c => !isUnsafeUrlByte c) := by
        intro x hx
        have hx2 : x ∈ '/' :: '/' :: rest := by simp [hx]
        rw [← heq] at hx2
        split at hx2
        · exact List.mem_of_mem_drop (List.mem_of_mem_drop hx2)
        · exact hx2
      have hpc := List.mem_takeWhile_imp hc
      simp only [Bool.not_eq_true', Bool.or_eq_false_iff] at hpc
      obtain ⟨⟨hp1, hp2⟩, hp3⟩ := hpc
      have hmem : c ∈ (l.dropWhile isC0ControlOrSpace).filter (fun c => !isUnsafeUrlByte c) :=
        hrest c (mem_of_mem_takeWhile hc)
      have hunsafe := List.of_mem_filter hmem
      simp only [Bool.not_eq_true'] at hunsafe
      exact ⟨hp1, hp2, hp3, hunsafe⟩
    · simp at hc
  · intro c hc
    have hq := List.mem_takeWhile_imp hc
    simp only [Bool.not_eq_true'] at hq
    have hc2 := mem_of_mem_takeWhile hc
    have hh := List.mem_takeWhile_imp hc2
    simp only [Bool.not_eq_true'] at hh
    have hc3 := mem_of_mem_takeWhile hc2
    have hmem : c ∈ (l.dropWhile isC0ControlOrSpace).filter (fun c => !isUnsafeUrlByte c) := by
      revert hc3
      split
      · rename_i rest heq
        intro hc3
        have hx2 : c ∈ '/' :: '/' :: rest := by
          simp [List.mem_of_mem_drop hc3]
        rw [← heq] at hx2
        split at hx2
        · exact List.mem_of_mem_drop (List.mem_of_mem_drop hx2)
        · exact hx2
      · rename_i heq
        intro hc3
        revert hc3
        split
        · intro hc3
          exact List.mem_of_mem_drop (List.mem_of_mem_drop hc3)
        · intro hc3
          exact hc3
    have hunsafe := List.of_mem_filter hmem
    simp only [Bool.not_eq_true'] at hunsafe
    exact ⟨hh, hq, hunsafe⟩

theorem all_beq_false_of_contains_false {l : List Char} {a : Char}
    (h : l.contains a = false) : ∀ c ∈ l, (c == a) = false := by
  intro c hc
  rw [beq_eq_false_iff_ne]
  rintro rfl
  have h2 : l.elem c = false := h
  rw [List.elem_eq_true_of_mem hc] at h2
  cases h2

/-- Idempotence of `normalizeUrlL` on character lists, for inputs with a
recognized scheme, no ";" in the parsed path, and no trailing double slash. -/
theorem normalizeUrlL_idem (l : List Char)
    (h1 : (urlsplit l).scheme ≠ [])
    (h2 : (urlsplit l).path.contains ';' = false)
    (h3 : ¬ (['/', '/'] <:+ (urlsplit l).path)) :
    normalizeUrlL (normalizeUrlL l) = normalizeUrlL l := by
  obtain ⟨hP1, hP2, hP3, hP4, hP5⟩ := urlsplit_props l
  have hsemi : ∀ c ∈ (urlsplit l).path, (c == ';') = false :=
    all_beq_false_of_contains_false h2
  have hparse : urlparse l = ⟨(urlsplit l).scheme, (urlsplit l).netloc, (urlsplit l).path,
      [], (urlsplit l).query, (urlsplit l).fragment⟩ := by
    simp only [urlparse, h2, Bool.and_false, Bool.false_eq_true, if_false]
  have hnorm : normalizeUrlL l =
      if ((urlsplit l).scheme ++ [':', '/', '/'] ++ (urlsplit l).netloc
          ++ (urlsplit l).path).getLast? == some '/' && decide (1 < (urlsplit l).path.length)
      then ((urlsplit l).scheme ++ [':', '/', '/'] ++ (urlsplit l).netloc
          ++ (urlsplit l).path).dropLast
      else (urlsplit l).scheme ++ [':', '/', '/'] ++ (urlsplit l).netloc
          ++ (urlsplit l).path := by
    simp only [normalizeUrlL, hparse]
  have hassoc2 : (urlsplit l).scheme ++ [':', '/', '/'] ++ (urlsplit l).netloc
      ++ (urlsplit l).path
      = (urlsplit l).scheme ++ ':' :: '/' :: '/' ::
        ((urlsplit l).netloc ++ (urlsplit l).path) := by
    simp only [List.append_assoc]
    rfl
  by_cases hc : (((urlsplit l).scheme ++ [':', '/', '/'] ++ (urlsplit l).netloc
      ++ (urlsplit l).path).getLast? == some '/'
      && decide (1 < (urlsplit l).path.length)) = true
  · rw [hnorm, if_pos hc]
    simp only [Bool.and_eq_true] at hc
    obtain ⟨hbeq, hlen⟩ := hc
    have hlast : ((urlsplit l).scheme ++ [':', '/', '/'] ++ (urlsplit l).netloc
        ++ (urlsplit l).path).getLast? = some '/' := eq_of_beq hbeq
    have hlt : 1 < (urlsplit l).path.length := of_decide_eq_true hlen
    have hPne : (urlsplit l).path ≠ [] := by
      intro he
      rw [he] at hlt
      simp at hlt
    have hPlast : (urlsplit l).path.getLast? = some '/' := by
      rw [List.getLast?_append_of_ne_nil _ hPne] at hlast
      exact hlast
    have hdropLast : ((urlsplit l).scheme ++ [':', '/', '/'] ++ (urlsplit l).netloc
        ++ (urlsplit l).path).dropLast
        = (urlsplit l).scheme ++ ':' :: '/' :: '/' ::
          ((urlsplit l).netloc ++ (urlsplit l).path.dropLast) := by
      rw [List.dropLast_append_of_ne_nil _ hPne]
      simp only [List.append_assoc]
      rfl
    rw [hdropLast]
    apply normalizeUrlL_fixed _ _ _ h1 hP1 (hP2 h1) hP3 hP4
    · intro c hcm
      have hcp : c ∈ (urlsplit l).path := (List.dropLast_sublist _).subset hcm
      exact ⟨(hP5 c hcp).1, (hP5 c hcp).2.1, hsemi c hcp, (hP5 c hcp).2.2⟩
    · intro hl
      by_cases hPd : (urlsplit l).path.dropLast = []
      · rw [hPd]
        simp
      · have hl2 : (urlsplit l).path.dropLast.getLast? = some '/' := by
          have he : (urlsplit l).scheme ++ ':' :: '/' :: '/' ::
              ((urlsplit l).netloc ++ (urlsplit l).path.dropLast)
              = (((urlsplit l).scheme ++ [':', '/', '/']) ++ (urlsplit l).netloc)
                ++ (urlsplit l).path.dropLast := by
            simp only [List.append_assoc]
            rfl
          rw [he, List.getLast?_append_of_ne_nil _ hPd] at hl
          exact hl
        exfalso
        apply h3
        have e1 := List.dropLast_append_getLast? '/' hPlast
        have e2 := List.dropLast_append_getLast? '/' hl2
        refine ⟨(urlsplit l).path.dropLast.dropLast, ?_⟩
        calc (urlsplit l).path.dropLast.dropLast ++ ['/', '/']
            = ((urlsplit l).path.dropLast.dropLast ++ ['/']) ++ ['/'] := by
              simp
          _ = (urlsplit l).path.dropLast ++ ['/'] := by rw [e2]
          _ = (urlsplit l).path := e1
  · rw [hnorm, if_neg hc]
    rw [hassoc2]
    apply normalizeUrlL_fixed _ _ _ h1 hP1 (hP2 h1) hP3 hP4
    · intro c hcm
      exact ⟨(hP5 c hcm).1, (hP5 c hcm).2.1, hsemi c hcm, (hP5 c hcm).2.2⟩
    · intro hl
      simp only [Bool.not_eq_true, Bool.and_eq_false_iff] at hc
      rcases hc with hb | hd
      · exfalso
        have hne2 : ((urlsplit l).scheme ++ [':', '/', '/'] ++ (urlsplit l).netloc
            ++ (urlsplit l).path).getLast? ≠ some '/' := by
          simpa using hb
        rw [hassoc2] at hne2
        exact hne2 hl
      · have hlen : (urlsplit l).path.length ≤ 1 := by
          have := of_decide_eq_false hd
          omega
        have hbound := List.length_drop
          ((List.takeWhile (fun c => !(c == '/' || c == '?' || c == '#'))
            (urlsplit l).path).length) (urlsplit l).path
        omega

/-- C6 (corrected). URL normalization is idempotent for every URL `u` whose
parsed scheme is nonempty, whose parsed path contains no ";" and does not end
in a double slash: `normalize(normalize(u)) = normalize(u)`; moreover the two
concrete equalities of the claim hold:
`normalize("https://x.com/a/") = normalize("https://x.com/a")` and
`normalize("https://x.com/a#frag") = normalize("https://x.com/a")`. The
unrestricted idempotence statement of the spec is refuted by
the `_normalize_url` treatment of a double trailing slash. -/
theorem normalize_idempotent_amended (u : String)
    (h1 : (urlsplit u.data).scheme ≠ [])
    (h2 : (urlsplit u.data).path.contains ';' = false)
    (h3 : ¬ (['/', '/'] <:+ (urlsplit u.data).path)) :
    normalizeUrl (normalizeUrl u) = normalizeUrl u ∧
    normalizeUrl "https://x.com/a/" = normalizeUrl "https://x.com/a" ∧
    normalizeUrl "https://x.com/a#frag" = normalizeUrl "https://x.com/a" := by
  refine ⟨?_, rfl, rfl⟩
  show (⟨normalizeUrlL (normalizeUrlL u.data)⟩ : String) = ⟨normalizeUrlL u.data⟩
  rw [normalizeUrlL_idem u.data h1 h2 h3]

/-- Witness for the amended C6 theorem at the concrete URL
"https://x.com/a/": all three hypotheses hold there and normalization is
idempotent on it. -/
theorem normalize_idempotent_amended_witness :
    ((urlsplit "https://x.com/a/".data).scheme ≠ [] ∧
     (urlsplit "https://x.com/a/".data).path.contains ';' = false ∧
     ¬ (['/', '/'] <:+ (urlsplit "https://x.com/a/".data).path)) ∧
    normalizeUrl (normalizeUrl "https://x.com/a/") = normalizeUrl "https://x.com/a/" :=
  ⟨⟨by decide, by decide, by decide⟩,
   (normalize_idempotent_amended "https://x.com/a/" (by decide) (by decide) (by decide)).1⟩

/-- Counterexample to the literal C6 claim: `_normalize_url` removes only one
trailing slash per call, so "https://x.com/a//" normalizes to
"https://x.com/a/" while a second normalization yields "https://x.com/a";
idempotence fails at this URL. -/
theorem normalize_idempotence_counterexample :
    normalizeUrl "https://x.com/a//" = "https://x.com/a/" ∧
    normalizeUrl (normalizeUrl "https://x.com/a//") = "https://x.com/a" ∧
    ¬ (normalizeUrl (normalizeUrl "https://x.com/a//") = normalizeUrl "https://x.com/a//") :=
  ⟨rfl, rfl, by decide⟩

end SeoAudit
